import Mathlib

/-! # aguavamusic-database: the Spotify client of `API/main.go`

A shallow embedding of `API/main.go`: the token cache (`getSpotifyAccessToken`),
the rate-limit retrier (`doSpotifyRequest`), the batch fetcher (`getTracksDetails`)
and the handler (`getSongs`), followed by the theorems about them.

Conventions of the embedding.

* The network, the clock and the JSON decoder are not part of the repository. They are
  oracles gathered in `Env`: the outcome of the `n`-th request sent to an endpoint, the
  value of the `n`-th reading of the clock, the result of decoding a body.
* The program state is passed explicitly (`State`): the two package-level cache variables,
  and counters and logs recording what the run did (requests sent, durations handed to
  `time.Sleep`, calls of `getTracksDetails`).
* Go's `int` and `time.Duration` are 64-bit two's-complement integers: they are integers
  here, wrapped by `wrap64` where the source does arithmetic that can overflow.
* A Go result `(value, error)` is an `Except Err value`; `Err` has one constructor for each
  `fmt.Errorf` of the source and `Err.message` renders the text.
-/

namespace Aguava

set_option linter.unusedVariables false

/-! ## Machine integers, durations, `strconv.Atoi` -/

/-- Two's-complement wrap of an integer into the range of `int64`. -/
def wrap64 (x : Int) : Int := (x + 2 ^ 63) % 2 ^ 64 - 2 ^ 63

/-- Range of a Go `int` on a 64-bit platform. -/
def inInt64 (x : Int) : Bool := decide (-(2 ^ 63) ≤ x) && decide (x ≤ 2 ^ 63 - 1)

/-- The constant `time.Second`, in nanoseconds. -/
def Second : Int := 1000000000

/-- The expression `time.Duration(n) * time.Second` of the source: an `int64` product,
in nanoseconds. -/
def durationOfSeconds (n : Int) : Int := wrap64 (n * Second)

/-- Value of a run of decimal digits, most significant first. -/
def digitsValue (ds : List Char) : Nat :=
  ds.foldl (fun acc c => acc * 10 + (c.toNat - 48)) 0

/-- Digits of a signed decimal numeral, after the optional sign. -/
def atoiDigits : List Char → Bool × List Char
  | '+' :: rest => (false, rest)
  | '-' :: rest => (true, rest)
  | cs => (false, cs)

/-- The library function `strconv.Atoi` for a 64-bit `int`: an optional sign, then one or more
ASCII digits, and a value in the range of `int`; `none` is a non-nil error. -/
def atoi (s : String) : Option Int :=
  let (neg, ds) := atoiDigits s.data
  if ds.isEmpty || !(ds.all Char.isDigit) then none
  else
    let v : Int := if neg then -(digitsValue ds : Int) else (digitsValue ds : Int)
    if inInt64 v then some v else none

/-! ## Errors -/

/-- The errors the source builds with `fmt.Errorf`, one constructor for each site. -/
inductive Err where
  /-- Line 84. -/
  | tokenExecute (cause : String)
  /-- Line 90. -/
  | tokenReadBody (cause : String)
  /-- Line 94. -/
  | tokenStatus (status : Int) (body : String)
  /-- Line 104. -/
  | tokenUnmarshal (cause : String)
  /-- Line 108. -/
  | emptyAccessToken
  /-- Line 126. -/
  | spotifyExecute (cause : String)
  /-- Line 138. -/
  | rateLimitExceeded (maxRetries : Nat)
  /-- Line 148. -/
  | maxRetriesReached
  /-- Line 157. -/
  | tooManyTrackIDs (got : Nat)
  /-- Line 164. -/
  | tracksCreateRequest (cause : String)
  /-- Line 176. -/
  | tracksReadBody (cause : String)
  /-- Line 180. -/
  | tracksStatus (status : Int) (body : String)
  /-- Line 192. -/
  | tracksUnmarshal (body : String) (cause : String)
  deriving DecidableEq, Repr

/-- Text of an error, as formatted by the source. -/
def Err.message : Err → String
  | .tokenExecute cause => "failed to execute token request: " ++ cause
  | .tokenReadBody cause => "failed to read token response body: " ++ cause
  | .tokenStatus status body =>
      "failed to fetch token: status " ++ toString status ++ " - " ++ body
  | .tokenUnmarshal cause => "failed to unmarshal token response: " ++ cause
  | .emptyAccessToken => "received empty access token"
  | .spotifyExecute cause => "failed executing request to Spotify: " ++ cause
  | .rateLimitExceeded maxRetries =>
      "rate limit exceeded after " ++ toString maxRetries ++ " retries"
  | .maxRetriesReached => "max retries reached for Spotify request"
  | .tooManyTrackIDs got =>
      "too many track IDs provided to getTracksDetails; max is 50, got " ++ toString got
  | .tracksCreateRequest cause => "failed to create tracks details request: " ++ cause
  | .tracksReadBody cause => "failed to read tracks details response body: " ++ cause
  | .tracksStatus status body =>
      "failed to fetch track data: status " ++ toString status ++ " - " ++ body
  | .tracksUnmarshal body cause =>
      "failed to unmarshal track data (response body: " ++ body ++ "): " ++ cause

/-! ## The outside world -/

/-- What the source reads from an `*http.Response`. -/
structure Response where
  /-- Field `resp.StatusCode`. -/
  StatusCode : Int
  /-- Value of `resp.Header.Get("Retry-After")`, the empty string when the header is absent. -/
  retryAfter : String
  /-- Result of `ioutil.ReadAll(resp.Body)`. -/
  body : Except String String

/-- Popularity maps, the `map[string]int` of the source: the value stored under a key, if any. -/
abbrev PopMap := String → Option Int

/-- The oracles a run depends on. -/
structure Env where
  /-- Value of the `n`-th call of `time.Now()`, in nanoseconds. -/
  now : Nat → Int
  /-- Outcome of the `n`-th `client.Do` on the token endpoint: a transport error or a response. -/
  tokenDo : Nat → Except String Response
  /-- Outcome of the `n`-th `client.Do` of `doSpotifyRequest`. -/
  spotifyDo : Nat → Except String Response
  /-- Decoding of a token body by `json.Unmarshal`: the fields `access_token` and `expires_in`
  (an `int`: the decoder reports an error for a number outside its range). -/
  unmarshalToken : String → Except String (String × Int)
  /-- Decoding of a tracks body by `json.Unmarshal`: the `id` and `popularity` of each track. -/
  unmarshalTracks : String → Except String (List (String × Int))
  /-- Library call `http.NewRequest("GET", url, nil)`: the error it reports for a URL, if any. -/
  newRequestErr : String → Option String

/-- Program state and the record of what a run has done. -/
structure State where
  /-- Package variable `cachedToken`. -/
  cachedToken : String
  /-- Package variable `tokenExpiration`, in nanoseconds. -/
  tokenExpiration : Int
  /-- Number of calls of `time.Now()` so far. -/
  clock : Nat
  /-- Number of requests sent to the token endpoint so far. -/
  tokenSent : Nat
  /-- Number of requests sent by `doSpotifyRequest` so far. -/
  sent : Nat
  /-- Durations handed to `time.Sleep` so far, in nanoseconds, oldest first. -/
  slept : List Int
  /-- Calls of `getTracksDetails` made by the batch loop so far, oldest first: the batch
  passed and the result returned. -/
  calls : List (List String × Except Err PopMap)

/-! ## `doSpotifyRequest` -/

/-- Local `maxRetries` of `doSpotifyRequest`. -/
def maxRetries : Nat := 3

/-- Delay computed on a 429 response at `retryCount`: `strconv.Atoi` of the header, and the
fallback `5 + retryCount*2` when it reports an error. -/
def retrySeconds (retryAfter : String) (retryCount : Nat) : Int :=
  match atoi retryAfter with
  | some n => n
  | none => 5 + (retryCount : Int) * 2

/-- The `for retryCount < maxRetries` loop of `doSpotifyRequest`, entered at `retryCount`. -/
def doSpotifyRequestLoop (env : Env) (retryCount : Nat) (s : State) :
    Except Err Response × State :=
  if retryCount < maxRetries then
    let s1 := { s with sent := s.sent + 1 }
    match env.spotifyDo s.sent with
    | .error cause => (.error (.spotifyExecute cause), s1)
    | .ok resp =>
      if resp.StatusCode = 429 then
        if retryCount ≥ maxRetries - 1 then
          (.error (.rateLimitExceeded maxRetries), s1)
        else
          doSpotifyRequestLoop env (retryCount + 1)
            { s1 with
              slept := s1.slept ++ [durationOfSeconds (retrySeconds resp.retryAfter retryCount)] }
      else
        (.ok resp, s1)
  else
    (.error .maxRetriesReached, s)
termination_by maxRetries - retryCount
decreasing_by
  simp_wf
  omega

/-- Function `doSpotifyRequest`: the loop entered with `retryCount := 0`. -/
def doSpotifyRequest (env : Env) (s : State) : Except Err Response × State :=
  doSpotifyRequestLoop env 0 s


/-! ## `getSpotifyAccessToken` -/

/-- The cache test of line 64, `cachedToken != "" && time.Now().Before(...)`: the clock is read
only when the token is not empty. Returns the verdict and the state after the test. -/
def cacheCheck (env : Env) (s : State) : Bool × State :=
  if s.cachedToken ≠ "" then
    (decide (env.now s.clock < s.tokenExpiration + (-60) * Second),
      { s with clock := s.clock + 1 })
  else
    (false, s)

/-- Lines 68-114 of `getSpotifyAccessToken`, the refresh after a cache miss. The request it
builds has constant method and URL, so `http.NewRequest` reports no error; what the endpoint
answers is the oracle `env.tokenDo`. -/
def fetchToken (env : Env) (clientID clientSecret : String) (s1 : State) :
    Except Err String × State :=
  let s2 := { s1 with tokenSent := s1.tokenSent + 1 }
  match env.tokenDo s1.tokenSent with
  | .error cause => (.error (.tokenExecute cause), s2)
  | .ok resp =>
    match resp.body with
    | .error cause => (.error (.tokenReadBody cause), s2)
    | .ok body =>
      if resp.StatusCode ≠ 200 then
        (.error (.tokenStatus resp.StatusCode body), s2)
      else
        match env.unmarshalToken body with
        | .error cause => (.error (.tokenUnmarshal cause), s2)
        | .ok (accessToken, expiresIn) =>
          if accessToken = "" then
            (.error .emptyAccessToken, s2)
          else
            let s3 := { s2 with
              cachedToken := accessToken
              tokenExpiration := env.now s2.clock + durationOfSeconds expiresIn
              clock := s2.clock + 1 }
            (.ok s3.cachedToken, s3)

/-- Function `getSpotifyAccessToken`: the cache test, then the refresh on a miss. -/
def getSpotifyAccessToken (env : Env) (clientID clientSecret : String) (s : State) :
    Except Err String × State :=
  let (hit, s1) := cacheCheck env s
  if hit then
    (.ok s1.cachedToken, s1)
  else
    fetchToken env clientID clientSecret s1

/-! ## `getTracksDetails` -/

/-- The constant `spotifyAPI`. -/
def spotifyAPI : String := "https://api.spotify.com/v1"

/-- The map `make(map[string]int)`. -/
def PopMap.empty : PopMap := fun _ => none

/-- The assignment `m[id] = pop`. -/
def PopMap.set (m : PopMap) (id : String) (pop : Int) : PopMap :=
  fun k => if k = id then some pop else m k

/-- The loop `for id, pop := range m { all[id] = pop }`. -/
def PopMap.merge (all m : PopMap) : PopMap :=
  fun k => match m k with
    | some pop => some pop
    | none => all k

/-- The loop of lines 196-200 over the decoded tracks. -/
def popularityOfTracks (tracks : List (String × Int)) : PopMap :=
  tracks.foldl (fun m track => if track.1 ≠ "" then m.set track.1 track.2 else m) PopMap.empty

/-- Function `getTracksDetails`. -/
def getTracksDetails (env : Env) (trackIDs : List String) (accessToken : String) (s : State) :
    Except Err PopMap × State :=
  if trackIDs.length = 0 then
    (.ok PopMap.empty, s)
  else if trackIDs.length > 50 then
    (.error (.tooManyTrackIDs trackIDs.length), s)
  else
    let url := spotifyAPI ++ "/tracks?ids=" ++ ",".intercalate trackIDs
    match env.newRequestErr url with
    | some cause => (.error (.tracksCreateRequest cause), s)
    | none =>
      match doSpotifyRequest env s with
      | (.error err, s1) => (.error err, s1)
      | (.ok resp, s1) =>
        match resp.body with
        | .error cause => (.error (.tracksReadBody cause), s1)
        | .ok body =>
          if resp.StatusCode ≠ 200 then
            (.error (.tracksStatus resp.StatusCode body), s1)
          else
            match env.unmarshalTracks body with
            | .error cause => (.error (.tracksUnmarshal body cause), s1)
            | .ok tracks => (.ok (popularityOfTracks tracks), s1)

/-! ## `getSongs` -/

/-- Type `song`. -/
structure song where
  Name : String
  Streams : Nat
  Key : String
  Bpm : Nat
  SpotifyID : String
  Popularity : Int
  deriving DecidableEq, Repr

/-- Package variable `songs`, the catalog. -/
def songs : List song := [
  { Name := "If I", Streams := 924000, Key := "B", Bpm := 119,
    SpotifyID := "54Ew6UcuXLChTnSAwXAIXY", Popularity := 0 },
  { Name := "Payday", Streams := 556000, Key := "F", Bpm := 126,
    SpotifyID := "4gpOjiawQcmFqRSwtp7Ppt", Popularity := 0 },
  { Name := "Quédate Conmigo", Streams := 111000, Key := "C", Bpm := 120,
    SpotifyID := "23Byo25q7SjXvpumZv3q4K", Popularity := 0 },
  { Name := "Whatever Happens, Happens", Streams := 472000, Key := "F#", Bpm := 118,
    SpotifyID := "2APRTIVViZequi0ZClGao5", Popularity := 0 },
  { Name := "Silk Thieves", Streams := 85900, Key := "G", Bpm := 125,
    SpotifyID := "3NX8oez6NU2BjJHDK06a65", Popularity := 0 },
  { Name := "Sinnerman", Streams := 87100, Key := "A#", Bpm := 127,
    SpotifyID := "2WSlfpTj1WD3H6vKZCXyik", Popularity := 0 },
  { Name := "Vanilla", Streams := 140000, Key := "F#", Bpm := 116,
    SpotifyID := "0KNQTHbKpmQtRSDgYhkJf7", Popularity := 0 },
  { Name := "Can We", Streams := 94800, Key := "F#", Bpm := 122,
    SpotifyID := "7lDSJLLBjsfPhZi79APe6i", Popularity := 0 },
  { Name := "Killin\x27 Me", Streams := 13501, Key := "A#", Bpm := 126,
    SpotifyID := "5u1SCoT3vRGHnpwYATaNUD", Popularity := 0 },
  { Name := "Aquatic Movements", Streams := 19500, Key := "A", Bpm := 124,
    SpotifyID := "1nHYUvlvvT57PtXdunIJP1", Popularity := 0 } ]

/-- The loop of lines 221-226: the identifiers of the catalog to look up. -/
def idsToFetch (catalog : List song) : List String :=
  catalog.foldl
    (fun ids s =>
      if s.SpotifyID ≠ "" && !("YOUR_REAL_".isPrefixOf s.SpotifyID) then ids ++ [s.SpotifyID]
      else ids)
    []

/-- Local `batchSize` of `getSongs`. -/
def batchSize : Nat := 50

/-- The batch loop of lines 233-249, entered at index `i` with the map `allPopularities`.
Each call of `getTracksDetails` is appended to `State.calls`. -/
def batchLoop (env : Env) (ids : List String) (accessToken : String) (i : Nat)
    (allPopularities : PopMap) (s : State) : PopMap × State :=
  if i < ids.length then
    let end_ := if i + batchSize > ids.length then ids.length else i + batchSize
    let batchIDs := (ids.drop i).take (end_ - i)
    let (result, s1) := getTracksDetails env batchIDs accessToken s
    let s2 := { s1 with calls := s1.calls ++ [(batchIDs, result)] }
    match result with
    | .error _ => batchLoop env ids accessToken (i + batchSize) allPopularities s2
    | .ok popularityMap =>
      batchLoop env ids accessToken (i + batchSize) (allPopularities.merge popularityMap) s2
  else
    (allPopularities, s)
termination_by ids.length - i
decreasing_by
  all_goals simp_wf
  all_goals simp only [batchSize]
  all_goals omega

/-- The body of the loop of lines 256-268 for one entry of the copy. -/
def assignPopularity (allPopularities : PopMap) (s : song) : song :=
  if s.SpotifyID ≠ "" then
    match allPopularities s.SpotifyID with
    | some popularity => { s with Popularity := popularity }
    | none => { s with Popularity := 0 }
  else
    { s with Popularity := 0 }

/-- The copy `responseSongs` of the catalog after the loop of lines 256-268, before sorting. -/
def enrich (catalog : List song) (allPopularities : PopMap) : List song :=
  catalog.map (assignPopularity allPopularities)

/-- One step of straight insertion: `x` moves left over the elements it is less than.
The list is the sorted part, last element first. -/
def insertLeft {α : Type} (less : α → α → Bool) (x : α) : List α → List α
  | [] => [x]
  | p :: rest => if less x p then p :: insertLeft less x rest else x :: p :: rest

/-- The library function `sort.Slice`, which is not part of the repository. It is modelled by
straight insertion, the algorithm the library runs on short slices; `less` compares two
elements. The theorems use only that the result is a permutation ordered by `less`. -/
def sortSlice {α : Type} (less : α → α → Bool) (data : List α) : List α :=
  (data.foldl (fun sorted x => insertLeft less x sorted) []).reverse

/-- The `switch sortBy` of lines 271-302. -/
def sortSongs (sortBy sortOrder : String) (responseSongs : List song) : List song :=
  if sortBy = "streams" then
    if sortOrder = "asc" then sortSlice (fun a b => decide (a.Streams < b.Streams)) responseSongs
    else sortSlice (fun a b => decide (a.Streams > b.Streams)) responseSongs
  else if sortBy = "key" then
    if sortOrder = "asc" then sortSlice (fun a b => decide (a.Key < b.Key)) responseSongs
    else sortSlice (fun a b => decide (a.Key > b.Key)) responseSongs
  else if sortBy = "bpm" then
    if sortOrder = "asc" then sortSlice (fun a b => decide (a.Bpm < b.Bpm)) responseSongs
    else sortSlice (fun a b => decide (a.Bpm > b.Bpm)) responseSongs
  else if sortBy = "popularity" then
    if sortOrder = "asc" then
      sortSlice (fun a b => decide (a.Popularity < b.Popularity)) responseSongs
    else sortSlice (fun a b => decide (a.Popularity > b.Popularity)) responseSongs
  else if sortBy = "name" then
    if sortOrder = "asc" then sortSlice (fun a b => decide (a.Name < b.Name)) responseSongs
    else sortSlice (fun a b => decide (a.Name > b.Name)) responseSongs
  else
    responseSongs

/-- What the handler writes with `c.IndentedJSON`. -/
inductive Reply where
  /-- A status and an object whose field `error` is the message. -/
  | error (status : Nat) (message : String)
  /-- A status and a list of songs. -/
  | songs (status : Nat) (list : List song)
  deriving DecidableEq, Repr

/-- Function `getSongs`, the handler. `catalog` is the package variable `songs`; the two
credentials are the values of the environment variables; `sortByQuery` and `sortOrderQuery`
are the query parameters, `none` when absent. -/
def getSongs (env : Env) (catalog : List song) (clientID clientSecret : String)
    (sortByQuery sortOrderQuery : Option String) (s : State) : Reply × State :=
  let sortBy := sortByQuery.getD "streams"
  let sortOrder := sortOrderQuery.getD "desc"
  match getSpotifyAccessToken env clientID clientSecret s with
  | (.error _, s1) => (.error 500 "Could not authenticate with Spotify", s1)
  | (.ok accessToken, s1) =>
    let (allPopularities, s2) := batchLoop env (idsToFetch catalog) accessToken 0 PopMap.empty s1
    let responseSongs := enrich catalog allPopularities
    (.songs 200 (sortSongs sortBy sortOrder responseSongs), s2)

/-! ## The run of the batch loop, call by call

The definitions below are not in the source. They describe the sequence of calls of
`getTracksDetails` that the batch loop is proved to make: which batch each call receives, in
which state it is made, and what the results add up to. -/

/-- Batch number `k` of a list of identifiers: the block of 50 that starts at position
`50 * k`. -/
def batchAt (ids : List String) (k : Nat) : List String :=
  (ids.drop (50 * k)).take 50

/-- The state after `k` calls `getTracksDetails env (batchAt ids j) accessToken` for
`j = 0, ..., k - 1`, made one after the other from the state `s`, each call being recorded
with its result in `State.calls`. -/
def stateAtBatch (env : Env) (ids : List String) (accessToken : String) (s : State) :
    Nat → State
  | 0 => s
  | k + 1 =>
    { (getTracksDetails env (batchAt ids k) accessToken
          (stateAtBatch env ids accessToken s k)).2 with
      calls :=
        (getTracksDetails env (batchAt ids k) accessToken
            (stateAtBatch env ids accessToken s k)).2.calls
          ++ [(batchAt ids k,
                (getTracksDetails env (batchAt ids k) accessToken
                  (stateAtBatch env ids accessToken s k)).1)] }

/-- The result of call number `k` of that sequence: what `getTracksDetails` returns for
batch `k` in the state reached after the `k` calls before it. -/
def resultAtBatch (env : Env) (ids : List String) (accessToken : String) (s : State)
    (k : Nat) : Except Err PopMap :=
  (getTracksDetails env (batchAt ids k) accessToken (stateAtBatch env ids accessToken s k)).1

/-- The map after a sequence of results, oldest first: an error leaves the map as it is, a
map is merged into it. -/
def mergeResults (start : PopMap) (results : List (Except Err PopMap)) : PopMap :=
  results.foldl
    (fun all result =>
      match result with
      | .error _ => all
      | .ok popularityMap => all.merge popularityMap)
    start

/-! ## Concrete runs -/

/-- The state of a fresh process: empty cache, zero expiration, nothing done yet. -/
def freshState : State :=
  { cachedToken := "", tokenExpiration := 0, clock := 0, tokenSent := 0, sent := 0,
    slept := [], calls := [] }

/-- An answer with the given status, `Retry-After` header and body. -/
def answer (status : Int) (retryAfter body : String) : Response :=
  { StatusCode := status, retryAfter := retryAfter, body := .ok body }

/-- Decoder of the concrete runs for token bodies: `"huge"` carries `expires_in = 9223372037`,
every other body `expires_in = 3600`; the token is `"tok"`. -/
def sampleUnmarshalToken (body : String) : Except String (String × Int) :=
  if body = "huge" then .ok ("tok", 9223372037) else .ok ("tok", 3600)

/-- Decoder of the concrete runs for tracks bodies: one track `"a"` of popularity 7. -/
def sampleUnmarshalTracks (_body : String) : Except String (List (String × Int)) :=
  .ok [("a", 7)]

/-- An environment given by its clock and its two sequences of answers. -/
def sampleEnv (now : Nat → Int) (tokenDo spotifyDo : Nat → Except String Response) : Env :=
  { now := now, tokenDo := tokenDo, spotifyDo := spotifyDo,
    unmarshalToken := sampleUnmarshalToken, unmarshalTracks := sampleUnmarshalTracks,
    newRequestErr := fun _ => none }

/-- Every request to the API is answered 429 without a `Retry-After` header. -/
def envAlways429 : Env :=
  sampleEnv (fun _ => 0) (fun _ => .ok (answer 200 "" "")) (fun _ => .ok (answer 429 "" ""))

/-- The first request to the API is answered 429, the following ones 500. -/
def env429Then500 : Env :=
  sampleEnv (fun _ => 0) (fun _ => .ok (answer 200 "" ""))
    (fun n => if n = 0 then .ok (answer 429 "" "") else .ok (answer 500 "" "oops"))

/-- The first request to the API is answered 429 with `Retry-After: 9223372037`, the
following ones 200. -/
def envRetryAfterHuge : Env :=
  sampleEnv (fun _ => 0) (fun _ => .ok (answer 200 "" ""))
    (fun n => if n = 0 then .ok (answer 429 "9223372037" "") else .ok (answer 200 "" ""))

/-- The token endpoint answers 200 with a body whose `expires_in` is 9223372037; the clock
reads 0 at its first reading and 1 second afterwards. -/
def envExpiresHuge : Env :=
  sampleEnv (fun n => if n = 0 then 0 else Second) (fun _ => .ok (answer 200 "" "huge"))
    (fun _ => .ok (answer 200 "" ""))

/-- The token endpoint answers 200 with `expires_in = 3600`; the `n`-th reading of the clock
is `n` seconds. -/
def envExpiresHour : Env :=
  sampleEnv (fun n => (n : Int) * Second) (fun _ => .ok (answer 200 "" "hour"))
    (fun _ => .ok (answer 200 "" ""))

/-- A song of the given name and streams, the other fields empty. -/
def track (name : String) (streams : Nat) : song :=
  { Name := name, Streams := streams, Key := "", Bpm := 0, SpotifyID := "", Popularity := 0 }

/-- A popularity map with the single entry `"x" ↦ 42`. -/
def samplePopularities : PopMap := PopMap.empty.set "x" 42

/-- A catalog of three entries: one found in `samplePopularities`, one absent from it, one
without identifier. -/
def sampleCatalog : List song :=
  [ { Name := "A", Streams := 10, Key := "C", Bpm := 100, SpotifyID := "x", Popularity := 5 },
    { Name := "B", Streams := 30, Key := "D", Bpm := 110, SpotifyID := "y", Popularity := 6 },
    { Name := "C", Streams := 20, Key := "E", Bpm := 120, SpotifyID := "", Popularity := 7 } ]

/-- The first request to the API fails in transport; every later one is answered 200 with a
body that decodes to the one track `"a"` of popularity 7. -/
def envDownThenUp : Env :=
  sampleEnv (fun n => (n : Int) * Second) (fun _ => .ok (answer 200 "" "hour"))
    (fun n => if n = 0 then .error "down" else .ok (answer 200 "" "tracks"))

/-- A catalog of 51 entries with identifiers: 50 entries `"x"` with 1 stream each, then one
entry `"a"` with 100 streams. -/
def bigCatalog : List song :=
  List.replicate 50
      { Name := "X", Streams := 1, Key := "C", Bpm := 100, SpotifyID := "x", Popularity := 3 }
    ++ [{ Name := "A", Streams := 100, Key := "D", Bpm := 120, SpotifyID := "a",
          Popularity := 3 }]

/-- The state after the token `"tok"` was fetched from a fresh state at time 0 with
`expires_in = 3600`. -/
def tokenState : State :=
  { cachedToken := "tok", tokenExpiration := 3600 * Second, clock := 1, tokenSent := 1,
    sent := 0, slept := [], calls := [] }

/-! # Theorems -/

/-! ### Unfolding the loop -/

theorem loop_transport (env : Env) (rc : Nat) (s : State) (cause : String)
    (hrc : rc < 3) (h : env.spotifyDo s.sent = .error cause) :
    doSpotifyRequestLoop env rc s
      = (.error (.spotifyExecute cause), { s with sent := s.sent + 1 }) := by
  rw [doSpotifyRequestLoop]
  simp [maxRetries, hrc, h]

theorem loop_other (env : Env) (rc : Nat) (s : State) (resp : Response)
    (hrc : rc < 3) (h : env.spotifyDo s.sent = .ok resp) (hs : resp.StatusCode ≠ 429) :
    doSpotifyRequestLoop env rc s = (.ok resp, { s with sent := s.sent + 1 }) := by
  rw [doSpotifyRequestLoop]
  simp [maxRetries, hrc, h, hs]

theorem loop_429_last (env : Env) (s : State) (resp : Response)
    (h : env.spotifyDo s.sent = .ok resp) (hs : resp.StatusCode = 429) :
    doSpotifyRequestLoop env 2 s
      = (.error (.rateLimitExceeded 3), { s with sent := s.sent + 1 }) := by
  rw [doSpotifyRequestLoop]
  simp [maxRetries, h, hs]

theorem loop_429_retry (env : Env) (rc : Nat) (s : State) (resp : Response)
    (hrc : rc < 2) (h : env.spotifyDo s.sent = .ok resp) (hs : resp.StatusCode = 429) :
    doSpotifyRequestLoop env rc s
      = doSpotifyRequestLoop env (rc + 1)
          { s with
            sent := s.sent + 1
            slept := s.slept ++ [durationOfSeconds (retrySeconds resp.retryAfter rc)] } := by
  rw [doSpotifyRequestLoop]
  have h3 : rc < 3 := by omega
  have h2 : ¬ 2 ≤ rc := by omega
  simp [maxRetries, h3, h2, h, hs]

theorem loop_exit (env : Env) (rc : Nat) (s : State) (hrc : 3 ≤ rc) :
    doSpotifyRequestLoop env rc s = (.error .maxRetriesReached, s) := by
  rw [doSpotifyRequestLoop]
  have h3 : ¬ rc < 3 := by omega
  simp [maxRetries, h3]

/-- Requests sent by the loop entered at `rc`: at most `3 - rc`, and never fewer than before. -/
theorem loop_sent_bounds (env : Env) (n : Nat) :
    ∀ (rc : Nat) (s : State), 3 - rc = n →
      s.sent ≤ (doSpotifyRequestLoop env rc s).2.sent ∧
      (doSpotifyRequestLoop env rc s).2.sent ≤ s.sent + n := by
  induction n with
  | zero =>
    intro rc s h
    rw [loop_exit env rc s (by omega)]
    simp
  | succ n ih =>
    intro rc s h
    have hrc : rc < 3 := by omega
    rcases hd : env.spotifyDo s.sent with cause | resp
    · rw [loop_transport env rc s cause hrc hd]
      simp
    · by_cases hs : resp.StatusCode = 429
      · by_cases h2 : rc < 2
        · rw [loop_429_retry env rc s resp h2 hd hs]
          have := ih (rc + 1)
            { s with
              sent := s.sent + 1
              slept := s.slept ++ [durationOfSeconds (retrySeconds resp.retryAfter rc)] }
            (by omega)
          simp only at this
          omega
        · have : rc = 2 := by omega
          subst this
          rw [loop_429_last env s resp hd hs]
          simp
      · rw [loop_other env rc s resp hrc hd hs]
        simp

/-- The return of line 148 is not reached from an entry with `retryCount < 3`. -/
theorem loop_never_generic (env : Env) (n : Nat) :
    ∀ (rc : Nat) (s : State), rc < 3 → 3 - rc = n →
      (doSpotifyRequestLoop env rc s).1 ≠ .error .maxRetriesReached := by
  induction n with
  | zero =>
    intro rc s hrc h
    omega
  | succ n ih =>
    intro rc s hrc h
    rcases hd : env.spotifyDo s.sent with cause | resp
    · rw [loop_transport env rc s cause hrc hd]
      simp
    · by_cases hs : resp.StatusCode = 429
      · by_cases h2 : rc < 2
        · rw [loop_429_retry env rc s resp h2 hd hs]
          exact ih (rc + 1) _ (by omega) (by omega)
        · have : rc = 2 := by omega
          subst this
          rw [loop_429_last env s resp hd hs]
          simp
      · rw [loop_other env rc s resp hrc hd hs]
        simp

/-- A request beyond the first is sent only when the one before it was answered 429. -/
theorem loop_further_only_after_429 (env : Env) (n : Nat) :
    ∀ (rc : Nat) (s : State), 3 - rc = n → ∀ j : Nat,
      s.sent + j + 1 < (doSpotifyRequestLoop env rc s).2.sent →
      ∃ r, env.spotifyDo (s.sent + j) = .ok r ∧ r.StatusCode = 429 := by
  induction n with
  | zero =>
    intro rc s h j hj
    rw [loop_exit env rc s (by omega)] at hj
    simp only at hj
    omega
  | succ n ih =>
    intro rc s h j hj
    have hrc : rc < 3 := by omega
    rcases hd : env.spotifyDo s.sent with cause | resp
    · rw [loop_transport env rc s cause hrc hd] at hj
      simp at hj
    · by_cases hs : resp.StatusCode = 429
      · by_cases h2 : rc < 2
        · rw [loop_429_retry env rc s resp h2 hd hs] at hj
          cases j with
          | zero => exact ⟨resp, by simpa using hd, hs⟩
          | succ j =>
            have := ih (rc + 1)
              { s with
                sent := s.sent + 1
                slept := s.slept ++ [durationOfSeconds (retrySeconds resp.retryAfter rc)] }
              (by omega) j (by simp only; omega)
            obtain ⟨r, hr, hr429⟩ := this
            refine ⟨r, ?_, hr429⟩
            have e : s.sent + (j + 1) = s.sent + 1 + j := by omega
            rw [e]
            exact hr
        · have : rc = 2 := by omega
          subst this
          rw [loop_429_last env s resp hd hs] at hj
          simp at hj
      · rw [loop_other env rc s resp hrc hd hs] at hj
        simp at hj

/-- After `k` answers 429 in a row the loop entered at `rc` is the loop entered at `rc + k`,
in a state with `k` more requests sent and `k` more sleeps. -/
theorem loop_skip_429 (env : Env) (k : Nat) :
    ∀ (rc : Nat) (s : State), rc + k < 3 →
      (∀ j, j < k → ∃ r, env.spotifyDo (s.sent + j) = .ok r ∧ r.StatusCode = 429) →
      ∃ s1 : State, doSpotifyRequestLoop env rc s = doSpotifyRequestLoop env (rc + k) s1 ∧
        s1.sent = s.sent + k ∧ s1.slept.length = s.slept.length + k := by
  induction k with
  | zero =>
    intro rc s _ _
    exact ⟨s, rfl, rfl, rfl⟩
  | succ k ih =>
    intro rc s hrc h
    obtain ⟨r, hr, hr429⟩ := h 0 (by omega)
    rw [loop_429_retry env rc s r (by omega) (by simpa using hr) hr429]
    obtain ⟨s1, h1, h2, h3⟩ := ih (rc + 1)
      { s with
        sent := s.sent + 1
        slept := s.slept ++ [durationOfSeconds (retrySeconds r.retryAfter rc)] }
      (by omega)
      (by
        intro j hj
        obtain ⟨r1, hr1, hr1429⟩ := h (j + 1) (by omega)
        refine ⟨r1, ?_, hr1429⟩
        have e : s.sent + 1 + j = s.sent + (j + 1) := by omega
        simp only [e]
        exact hr1)
    refine ⟨s1, ?_, ?_, ?_⟩
    · rw [h1]
      have e : rc + 1 + k = rc + (k + 1) := by omega
      rw [e]
    · rw [h2]
      simp only
      omega
    · rw [h3]
      simp only [List.length_append, List.length_singleton]
      omega

/-- Claim C1. `doSpotifyRequest` is a bounded retrier for rate limits only. For every sequence of
upstream outcomes it sends at most 3 requests. When the first three answers are all 429 it
sends exactly 3 requests, sleeps exactly twice (the two delays computed on the first and the
second answer, none after the third), and returns no response and the error whose text is
"rate limit exceeded after 3 retries". For no sequence of outcomes does it return the
generic error "max retries reached for Spotify request". -/
theorem doSpotifyRequest_bounded_retrier (env : Env) (s : State) :
    maxRetries = 3 ∧
    (doSpotifyRequest env s).2.sent ≤ s.sent + 3 ∧
    (∀ r0 r1 r2 : Response,
      env.spotifyDo s.sent = .ok r0 → r0.StatusCode = 429 →
      env.spotifyDo (s.sent + 1) = .ok r1 → r1.StatusCode = 429 →
      env.spotifyDo (s.sent + 2) = .ok r2 → r2.StatusCode = 429 →
        (doSpotifyRequest env s).1 = .error (.rateLimitExceeded 3) ∧
        (Err.rateLimitExceeded 3).message = "rate limit exceeded after 3 retries" ∧
        (doSpotifyRequest env s).2.sent = s.sent + 3 ∧
        (doSpotifyRequest env s).2.slept
          = s.slept ++ [durationOfSeconds (retrySeconds r0.retryAfter 0),
                        durationOfSeconds (retrySeconds r1.retryAfter 1)]) ∧
    (doSpotifyRequest env s).1 ≠ .error .maxRetriesReached := by
  refine ⟨rfl, (loop_sent_bounds env 3 0 s rfl).2, ?_, loop_never_generic env 3 0 s (by omega) rfl⟩
  intro r0 r1 r2 h0 hs0 h1 hs1 h2 hs2
  unfold doSpotifyRequest
  rw [loop_429_retry env 0 s r0 (by omega) h0 hs0]
  rw [loop_429_retry env 1 _ r1 (by omega) h1 hs1]
  rw [loop_429_last env _ r2 h2 hs2]
  refine ⟨rfl, by decide, rfl, ?_⟩
  simp

/-- Claim C6. Only rate-limit answers are retried. When the attempts before attempt `k`
(`k < 3`, counted from 0) were all answered 429: a transport error at attempt `k` is returned
at once as an error, with no response and `k + 1` requests sent; an answer at attempt `k`
whose status is not 429 is returned as it is, with no error and `k + 1` requests sent. And
whatever the outcomes, a request after the first is sent only after an answer 429. -/
theorem doSpotifyRequest_retries_only_429 (env : Env) (s : State) (k : Nat) (hk : k < 3)
    (h429 : ∀ j, j < k → ∃ r, env.spotifyDo (s.sent + j) = .ok r ∧ r.StatusCode = 429) :
    (∀ cause : String, env.spotifyDo (s.sent + k) = .error cause →
      (doSpotifyRequest env s).1 = .error (.spotifyExecute cause) ∧
      (doSpotifyRequest env s).2.sent = s.sent + k + 1) ∧
    (∀ resp : Response, env.spotifyDo (s.sent + k) = .ok resp → resp.StatusCode ≠ 429 →
      (doSpotifyRequest env s).1 = .ok resp ∧
      (doSpotifyRequest env s).2.sent = s.sent + k + 1) ∧
    (∀ j : Nat, s.sent + j + 1 < (doSpotifyRequest env s).2.sent →
      ∃ r, env.spotifyDo (s.sent + j) = .ok r ∧ r.StatusCode = 429) := by
  obtain ⟨s1, h1, h2, _⟩ := loop_skip_429 env k 0 s (by omega) h429
  unfold doSpotifyRequest
  rw [h1]
  refine ⟨?_, ?_, ?_⟩
  · intro cause hc
    rw [← h2] at hc
    rw [loop_transport env (0 + k) s1 cause (by omega) hc]
    simp [h2]
  · intro resp hr hs
    rw [← h2] at hr
    rw [loop_other env (0 + k) s1 resp (by omega) hr hs]
    simp [h2]
  · rw [← h1]
    exact loop_further_only_after_429 env 3 0 s rfl

/-- Witness of C1: three answers 429 in a row from a fresh state. -/
theorem doSpotifyRequest_bounded_retrier_witness :
    (doSpotifyRequest envAlways429 freshState).1 = .error (.rateLimitExceeded 3) ∧
    (doSpotifyRequest envAlways429 freshState).2.sent = 3 ∧
    (doSpotifyRequest envAlways429 freshState).2.slept = [5 * Second, 7 * Second] := by
  have h := (doSpotifyRequest_bounded_retrier envAlways429 freshState).2.2.1
    (answer 429 "" "") (answer 429 "" "") (answer 429 "" "") rfl rfl rfl rfl rfl rfl
  refine ⟨h.1, h.2.2.1, ?_⟩
  rw [h.2.2.2]
  decide

/-- Witness of C6: the second attempt is answered 500, which is returned after 2 requests. -/
theorem doSpotifyRequest_retries_only_429_witness :
    (1 < 3) ∧
    (∀ j, j < 1 →
      ∃ r, env429Then500.spotifyDo (freshState.sent + j) = .ok r ∧ r.StatusCode = 429) ∧
    (doSpotifyRequest env429Then500 freshState).1 = .ok (answer 500 "" "oops") ∧
    (doSpotifyRequest env429Then500 freshState).2.sent = 2 := by
  have h429 : ∀ j, j < 1 →
      ∃ r, env429Then500.spotifyDo (freshState.sent + j) = .ok r ∧ r.StatusCode = 429 := by
    intro j hj
    have : j = 0 := by omega
    subst this
    exact ⟨answer 429 "" "", rfl, rfl⟩
  have h := (doSpotifyRequest_retries_only_429 env429Then500 freshState 1 (by decide) h429).2.1
    (answer 500 "" "oops") rfl (by decide)
  exact ⟨by decide, h429, h.1, h.2⟩

/-! ### The delay before a retry -/

theorem retrySeconds_of_header (retryAfter : String) (k : Nat) (n : Int)
    (h : atoi retryAfter = some n) : retrySeconds retryAfter k = n := by
  simp [retrySeconds, h]

theorem retrySeconds_fallback (retryAfter : String) (k : Nat) (h : atoi retryAfter = none) :
    retrySeconds retryAfter k = 5 + 2 * (k : Int) := by
  simp [retrySeconds, h]
  ring

/-- Below the overflow of the `int64` product the duration is the number of seconds. -/
theorem durationOfSeconds_exact (n : Int) (hlo : -9223372036 ≤ n) (hhi : n ≤ 9223372036) :
    durationOfSeconds n = n * Second := by
  unfold durationOfSeconds wrap64 Second
  have h1 : (0 : Int) ≤ n * 1000000000 + 2 ^ 63 := by norm_num; omega
  have h2 : n * 1000000000 + 2 ^ 63 < 2 ^ 64 := by norm_num; omega
  rw [Int.emod_eq_of_lt h1 h2]
  ring

/-- The loop entered at the last attempt does not sleep. -/
theorem loop_last_no_sleep (env : Env) (s : State) :
    (doSpotifyRequestLoop env 2 s).2.slept = s.slept := by
  rcases hd : env.spotifyDo s.sent with cause | resp
  · rw [loop_transport env 2 s cause (by omega) hd]
  · by_cases hs : resp.StatusCode = 429
    · rw [loop_429_last env s resp hd hs]
    · rw [loop_other env 2 s resp (by omega) hd hs]

/-- The delays of `doSpotifyRequest`: the sleep after a first answer 429 and the sleep after a
second answer 429 are the durations computed from those answers, in this order. -/
theorem doSpotifyRequest_delays (env : Env) (s : State) (r0 : Response)
    (h0 : env.spotifyDo s.sent = .ok r0) (hs0 : r0.StatusCode = 429) :
    (∃ rest, (doSpotifyRequest env s).2.slept
        = s.slept ++ durationOfSeconds (retrySeconds r0.retryAfter 0) :: rest) ∧
    (∀ r1 : Response, env.spotifyDo (s.sent + 1) = .ok r1 → r1.StatusCode = 429 →
      (doSpotifyRequest env s).2.slept
        = s.slept ++ [durationOfSeconds (retrySeconds r0.retryAfter 0),
                      durationOfSeconds (retrySeconds r1.retryAfter 1)]) := by
  unfold doSpotifyRequest
  rw [loop_429_retry env 0 s r0 (by omega) h0 hs0]
  have key : ∀ r1 : Response, env.spotifyDo (s.sent + 1) = .ok r1 → r1.StatusCode = 429 →
      (doSpotifyRequestLoop env (0 + 1)
          { s with
            sent := s.sent + 1
            slept := s.slept ++ [durationOfSeconds (retrySeconds r0.retryAfter 0)] }).2.slept
        = s.slept ++ [durationOfSeconds (retrySeconds r0.retryAfter 0),
                      durationOfSeconds (retrySeconds r1.retryAfter 1)] := by
    intro r1 h1 hs1
    rw [loop_429_retry env (0 + 1) _ r1 (by omega) h1 hs1]
    rw [loop_last_no_sleep]
    simp
  refine ⟨?_, key⟩
  rcases hd : env.spotifyDo (s.sent + 1) with cause | r1
  · rw [loop_transport env (0 + 1) _ cause (by omega) hd]
    exact ⟨[], by simp⟩
  · by_cases hs : r1.StatusCode = 429
    · rw [key r1 hd hs]
      exact ⟨[durationOfSeconds (retrySeconds r1.retryAfter 1)], by simp⟩
    · rw [loop_other env (0 + 1) _ r1 (by omega) hd hs]
      exact ⟨[], by simp⟩

/-- Claim C5, at the failing input. The first answer is 429 with `Retry-After: 9223372037`, a
header that `strconv.Atoi` parses to 9223372037; the second answer is 200. The one duration
handed to `time.Sleep` is the wrapped product -9223372036709551616 ns, not 9223372037 s. -/
theorem doSpotifyRequest_delay_overflow :
    atoi "9223372037" = some 9223372037 ∧
    (doSpotifyRequest envRetryAfterHuge freshState).2.sent = 2 ∧
    (doSpotifyRequest envRetryAfterHuge freshState).2.slept = [-9223372036709551616] ∧
    (doSpotifyRequest envRetryAfterHuge freshState).2.slept ≠ [9223372037 * Second] := by
  have hrun : doSpotifyRequest envRetryAfterHuge freshState
      = (.ok (answer 200 "" ""),
          { freshState with sent := 2, slept := [-9223372036709551616] }) := by
    unfold doSpotifyRequest
    rw [loop_429_retry envRetryAfterHuge 0 freshState (answer 429 "9223372037" "")
      (by omega) rfl rfl]
    rw [loop_other envRetryAfterHuge (0 + 1)
      { freshState with
        sent := freshState.sent + 1
        slept := freshState.slept
          ++ [durationOfSeconds (retrySeconds (answer 429 "9223372037" "").retryAfter 0)] }
      (answer 200 "" "") (by omega) rfl (by decide)]
    have hd : durationOfSeconds (retrySeconds (answer 429 "9223372037" "").retryAfter 0)
        = -9223372036709551616 := by decide
    rw [hd]
    rfl
  rw [hrun]
  exact ⟨by decide, rfl, rfl, by decide⟩

/-! ### The token cache -/

theorem cacheCheck_hit (env : Env) (s : State) (hne : s.cachedToken ≠ "")
    (hfresh : env.now s.clock < s.tokenExpiration - 60 * Second) :
    cacheCheck env s = (true, { s with clock := s.clock + 1 }) := by
  have e : s.tokenExpiration + (-60) * Second = s.tokenExpiration - 60 * Second := by ring
  unfold cacheCheck
  rw [if_pos hne, e, decide_eq_true hfresh]

theorem cacheCheck_miss (env : Env) (s : State)
    (hmiss : ¬ (s.cachedToken ≠ "" ∧ env.now s.clock < s.tokenExpiration - 60 * Second)) :
    (cacheCheck env s).1 = false ∧
    (cacheCheck env s).2.cachedToken = s.cachedToken ∧
    (cacheCheck env s).2.tokenExpiration = s.tokenExpiration ∧
    (cacheCheck env s).2.tokenSent = s.tokenSent := by
  have e : s.tokenExpiration + (-60) * Second = s.tokenExpiration - 60 * Second := by ring
  unfold cacheCheck
  by_cases hne : s.cachedToken ≠ ""
  · have ht : ¬ env.now s.clock < s.tokenExpiration - 60 * Second := fun h => hmiss ⟨hne, h⟩
    rw [if_pos hne, e, decide_eq_false ht]
    exact ⟨rfl, rfl, rfl, rfl⟩
  · rw [if_neg hne]
    exact ⟨rfl, rfl, rfl, rfl⟩

/-- The refresh sends exactly one request to the token endpoint. -/
theorem fetchToken_sent (env : Env) (clientID clientSecret : String) (s : State) :
    (fetchToken env clientID clientSecret s).2.tokenSent = s.tokenSent + 1 := by
  unfold fetchToken
  repeat' split
  all_goals rfl

/-- A refresh that returns an error leaves the two cache variables as they were. -/
theorem fetchToken_error (env : Env) (clientID clientSecret : String) (s : State) (err : Err)
    (h : (fetchToken env clientID clientSecret s).1 = .error err) :
    (fetchToken env clientID clientSecret s).2.cachedToken = s.cachedToken ∧
    (fetchToken env clientID clientSecret s).2.tokenExpiration = s.tokenExpiration := by
  revert h
  unfold fetchToken
  repeat' split
  all_goals first
    | (intro _; exact ⟨rfl, rfl⟩)
    | (intro h; simp at h)

/-- A refresh that returns a token got status 200 and a body that decodes to that token, not
empty, and to some `expires_in`; it stores the token, and as expiration the second reading of
the clock plus the duration computed from `expires_in`. -/
theorem fetchToken_ok (env : Env) (clientID clientSecret : String) (s : State) (tok : String)
    (h : (fetchToken env clientID clientSecret s).1 = .ok tok) :
    ∃ resp body expiresIn,
      env.tokenDo s.tokenSent = .ok resp ∧ resp.body = .ok body ∧ resp.StatusCode = 200 ∧
      env.unmarshalToken body = .ok (tok, expiresIn) ∧ tok ≠ "" ∧
      (fetchToken env clientID clientSecret s).2.cachedToken = tok ∧
      (fetchToken env clientID clientSecret s).2.tokenExpiration
        = env.now s.clock + durationOfSeconds expiresIn := by
  revert h
  unfold fetchToken
  split
  · intro h; simp at h
  · rename_i resp hresp
    split
    · intro h; simp at h
    · rename_i body hbody
      split
      · intro h; simp at h
      · rename_i hstatus
        split
        · intro h; simp at h
        · rename_i accessToken expiresIn hdec
          split
          · intro h; simp at h
          · rename_i hne
            intro h
            simp only [Except.ok.injEq] at h
            subst h
            refine ⟨resp, body, expiresIn, hresp, hbody, ?_, hdec, hne, rfl, rfl⟩
            by_contra hcon
            exact hstatus hcon

/-- The cache decision of `getSpotifyAccessToken`. With a token cached and the clock strictly
before the expiration minus 60 seconds, the call sends nothing to the token endpoint, returns
the cached token and leaves the two cache variables as they were; in every other case it
sends exactly one request to the token endpoint. -/
theorem getSpotifyAccessToken_decision (env : Env) (clientID clientSecret : String)
    (s : State) :
    (s.cachedToken ≠ "" ∧ env.now s.clock < s.tokenExpiration - 60 * Second →
      (getSpotifyAccessToken env clientID clientSecret s).1 = .ok s.cachedToken ∧
      (getSpotifyAccessToken env clientID clientSecret s).2.tokenSent = s.tokenSent ∧
      (getSpotifyAccessToken env clientID clientSecret s).2.cachedToken = s.cachedToken ∧
      (getSpotifyAccessToken env clientID clientSecret s).2.tokenExpiration
        = s.tokenExpiration) ∧
    (¬ (s.cachedToken ≠ "" ∧ env.now s.clock < s.tokenExpiration - 60 * Second) →
      (getSpotifyAccessToken env clientID clientSecret s).2.tokenSent = s.tokenSent + 1) := by
  constructor
  · rintro ⟨hne, hfresh⟩
    unfold getSpotifyAccessToken
    rw [cacheCheck_hit env s hne hfresh]
    exact ⟨rfl, rfl, rfl, rfl⟩
  · intro hmiss
    obtain ⟨h1, _, _, h4⟩ := cacheCheck_miss env s hmiss
    unfold getSpotifyAccessToken
    rcases hc : cacheCheck env s with ⟨hit, s1⟩
    rw [hc] at h1 h4
    simp only at h1 h4
    subst h1
    simp only [Bool.false_eq_true, if_false]
    rw [fetchToken_sent, h4]

/-- Atomicity of a failed call: an error leaves the two cache variables as they were. -/
theorem getSpotifyAccessToken_error (env : Env) (clientID clientSecret : String) (s : State)
    (err : Err) (h : (getSpotifyAccessToken env clientID clientSecret s).1 = .error err) :
    (getSpotifyAccessToken env clientID clientSecret s).2.cachedToken = s.cachedToken ∧
    (getSpotifyAccessToken env clientID clientSecret s).2.tokenExpiration
      = s.tokenExpiration := by
  by_cases hhit : s.cachedToken ≠ "" ∧ env.now s.clock < s.tokenExpiration - 60 * Second
  · have := (getSpotifyAccessToken_decision env clientID clientSecret s).1 hhit
    exact ⟨this.2.2.1, this.2.2.2⟩
  · obtain ⟨h1, h2, h3, _⟩ := cacheCheck_miss env s hhit
    revert h
    unfold getSpotifyAccessToken
    rcases hc : cacheCheck env s with ⟨hit, s1⟩
    rw [hc] at h1 h2 h3
    simp only at h1 h2 h3
    subst h1
    simp only [Bool.false_eq_true, if_false]
    intro h
    have := fetchToken_error env clientID clientSecret s1 err h
    rw [this.1, this.2, h2, h3]
    exact ⟨rfl, rfl⟩

/-- After a refresh that stored `tok` at time `t0` with an `expires_in` of `e` seconds, `e`
below the overflow of the `int64` product: a call at a time before `t0 + e - 60` seconds
returns the same token and sends nothing; a call at or after that time sends exactly one
request to the token endpoint. -/
theorem getSpotifyAccessToken_lifetime (env : Env) (clientID clientSecret : String)
    (s : State) (t0 e : Int) (hlo : -9223372036 ≤ e) (hhi : e ≤ 9223372036)
    (hne : s.cachedToken ≠ "") (hexp : s.tokenExpiration = t0 + durationOfSeconds e) :
    (env.now s.clock < t0 + e * Second - 60 * Second →
      (getSpotifyAccessToken env clientID clientSecret s).1 = .ok s.cachedToken ∧
      (getSpotifyAccessToken env clientID clientSecret s).2.tokenSent = s.tokenSent) ∧
    (t0 + e * Second - 60 * Second ≤ env.now s.clock →
      (getSpotifyAccessToken env clientID clientSecret s).2.tokenSent = s.tokenSent + 1) := by
  rw [durationOfSeconds_exact e hlo hhi] at hexp
  constructor
  · intro ht
    have := (getSpotifyAccessToken_decision env clientID clientSecret s).1
      ⟨hne, by rw [hexp]; exact ht⟩
    exact ⟨this.1, this.2.1⟩
  · intro ht
    apply (getSpotifyAccessToken_decision env clientID clientSecret s).2
    rintro ⟨_, hlt⟩
    rw [hexp] at hlt
    omega

/-- A concrete run of the cache: a refresh with `expires_in = 3600` at the first reading of
the clock, then a call one second later, which is served from the cache without a request. -/
theorem getSpotifyAccessToken_lifetime_example :
    (getSpotifyAccessToken envExpiresHour "id" "secret" freshState).1 = .ok "tok" ∧
    (getSpotifyAccessToken envExpiresHour "id" "secret" freshState).2.tokenExpiration
      = 3600 * Second ∧
    (getSpotifyAccessToken envExpiresHour "id" "secret"
      (getSpotifyAccessToken envExpiresHour "id" "secret" freshState).2).1 = .ok "tok" ∧
    (getSpotifyAccessToken envExpiresHour "id" "secret"
      (getSpotifyAccessToken envExpiresHour "id" "secret" freshState).2).2.tokenSent = 1 := by
  refine ⟨rfl, by decide, rfl, by decide⟩

/-- Claim C2, at the failing input. A refresh at time `t0 = 0` succeeds with the token `"tok"`
and `expires_in = 9223372037`. The next call is made at `t = 1` second, which lies in
`t0 ≤ t < t0 + expires_in - 60` seconds, and yet it is not served from the cache: it sends a
second request to the token endpoint. -/
theorem getSpotifyAccessToken_refresh_inside_lifetime :
    (getSpotifyAccessToken envExpiresHuge "id" "secret" freshState).1 = .ok "tok" ∧
    (getSpotifyAccessToken envExpiresHuge "id" "secret" freshState).2.tokenSent = 1 ∧
    envExpiresHuge.now 0 = 0 ∧
    envExpiresHuge.now
      (getSpotifyAccessToken envExpiresHuge "id" "secret" freshState).2.clock = Second ∧
    (0 ≤ Second ∧ Second < 0 + 9223372037 * Second - 60 * Second) ∧
    (getSpotifyAccessToken envExpiresHuge "id" "secret"
      (getSpotifyAccessToken envExpiresHuge "id" "secret" freshState).2).2.tokenSent = 2 := by
  refine ⟨rfl, by decide, by decide, by decide, by decide, by decide⟩

/-- Claim C3, at the failing input. A refresh at time 0 receives status 200 with the token
`"tok"` and `expires_in = 9223372037`. It succeeds and stores as expiration the wrapped
product -9223372036709551616 ns, not the time 0 plus 9223372037 seconds. -/
theorem getSpotifyAccessToken_expiration_overflow :
    envExpiresHuge.tokenDo 0 = .ok (answer 200 "" "huge") ∧
    envExpiresHuge.unmarshalToken "huge" = .ok ("tok", 9223372037) ∧
    envExpiresHuge.now 0 = 0 ∧
    (getSpotifyAccessToken envExpiresHuge "id" "secret" freshState).1 = .ok "tok" ∧
    (getSpotifyAccessToken envExpiresHuge "id" "secret" freshState).2.cachedToken = "tok" ∧
    (getSpotifyAccessToken envExpiresHuge "id" "secret" freshState).2.tokenExpiration
      = -9223372036709551616 ∧
    (getSpotifyAccessToken envExpiresHuge "id" "secret" freshState).2.tokenExpiration
      ≠ envExpiresHuge.now 0 + 9223372037 * Second := by
  refine ⟨rfl, rfl, rfl, rfl, by decide, by decide, by decide⟩

/-! ### Sorting -/

theorem insertLeft_perm {α : Type} (less : α → α → Bool) (x : α) (l : List α) :
    (insertLeft less x l).Perm (x :: l) := by
  induction l with
  | nil => exact List.Perm.refl _
  | cons p rest ih =>
    unfold insertLeft
    split
    · exact ((List.Perm.cons p ih).trans (List.Perm.swap x p rest))
    · exact List.Perm.refl _

theorem foldl_insertLeft_perm {α : Type} (less : α → α → Bool) (data : List α) :
    ∀ acc : List α,
      (data.foldl (fun sorted x => insertLeft less x sorted) acc).Perm (data.reverse ++ acc) := by
  induction data with
  | nil => intro acc; exact List.Perm.refl _
  | cons x rest ih =>
    intro acc
    simp only [List.foldl_cons, List.reverse_cons, List.append_assoc, List.singleton_append]
    exact (ih _).trans (List.Perm.append_left _ (insertLeft_perm less x acc))

/-- The result of `sortSlice` is a permutation of its input, whatever `less` is. -/
theorem sortSlice_perm {α : Type} (less : α → α → Bool) (data : List α) :
    (sortSlice less data).Perm data := by
  unfold sortSlice
  have h := foldl_insertLeft_perm less data []
  rw [List.append_nil] at h
  exact (List.reverse_perm _).trans (h.trans (List.reverse_perm _))

theorem mem_insertLeft {α : Type} (less : α → α → Bool) (x y : α) (l : List α)
    (h : y ∈ insertLeft less x l) : y = x ∨ y ∈ l := by
  have := (insertLeft_perm less x l).subset h
  simpa using this

theorem insertLeft_pairwise {α : Type} (less : α → α → Bool)
    (hasym : ∀ a b, less a b = true → less b a = false)
    (htrans : ∀ a b c, less a b = false → less b c = false → less a c = false)
    (x : α) (l : List α) (hl : l.Pairwise (fun a b => less a b = false)) :
    (insertLeft less x l).Pairwise (fun a b => less a b = false) := by
  induction l with
  | nil => simp [insertLeft]
  | cons p rest ih =>
    rw [List.pairwise_cons] at hl
    unfold insertLeft
    split
    · rename_i hlt
      rw [List.pairwise_cons]
      refine ⟨?_, ih hl.2⟩
      intro y hy
      rcases mem_insertLeft less x y rest hy with rfl | hy
      · exact hasym _ _ hlt
      · exact hl.1 y hy
    · rename_i hge
      have hxp : less x p = false := by simpa using hge
      rw [List.pairwise_cons]
      refine ⟨?_, List.pairwise_cons.mpr hl⟩
      intro y hy
      rcases List.mem_cons.mp hy with rfl | hy
      · exact hxp
      · exact htrans x p y hxp (hl.1 y hy)

theorem foldl_insertLeft_pairwise {α : Type} (less : α → α → Bool)
    (hasym : ∀ a b, less a b = true → less b a = false)
    (htrans : ∀ a b c, less a b = false → less b c = false → less a c = false)
    (data : List α) :
    ∀ acc : List α, acc.Pairwise (fun a b => less a b = false) →
      (data.foldl (fun sorted x => insertLeft less x sorted) acc).Pairwise
        (fun a b => less a b = false) := by
  induction data with
  | nil => intro acc h; exact h
  | cons x rest ih =>
    intro acc h
    exact ih _ (insertLeft_pairwise less hasym htrans x acc h)

/-- For a `less` that is a strict weak order, no element of the result of `sortSlice` is less
than an element before it. -/
theorem sortSlice_pairwise {α : Type} (less : α → α → Bool)
    (hasym : ∀ a b, less a b = true → less b a = false)
    (htrans : ∀ a b c, less a b = false → less b c = false → less a c = false)
    (data : List α) :
    (sortSlice less data).Pairwise (fun a b => less b a = false) := by
  unfold sortSlice
  rw [List.pairwise_reverse]
  exact foldl_insertLeft_pairwise less hasym htrans data [] List.Pairwise.nil

/-- Sorting with `less a b := key a < key b` gives a list non-decreasing in `key`. -/
theorem sortSlice_asc {α κ : Type} [LinearOrder κ] (key : α → κ) (less : α → α → Bool)
    (hless : ∀ a b, less a b = true ↔ key a < key b) (data : List α) :
    (sortSlice less data).Pairwise (fun a b => key a ≤ key b) := by
  have hfalse : ∀ a b, less a b = false ↔ key b ≤ key a := by
    intro a b
    rw [← not_lt, ← hless, Bool.not_eq_true]
  refine (sortSlice_pairwise less ?_ ?_ data).imp ?_
  · intro a b h
    rw [hfalse]
    exact le_of_lt ((hless a b).mp h)
  · intro a b c h1 h2
    rw [hfalse] at *
    exact le_trans h2 h1
  · intro a b h
    exact (hfalse b a).mp h

/-- Sorting with `less a b := key a > key b` gives a list non-increasing in `key`. -/
theorem sortSlice_desc {α κ : Type} [LinearOrder κ] (key : α → κ) (less : α → α → Bool)
    (hless : ∀ a b, less a b = true ↔ key a > key b) (data : List α) :
    (sortSlice less data).Pairwise (fun a b => key b ≤ key a) := by
  have hfalse : ∀ a b, less a b = false ↔ key a ≤ key b := by
    intro a b
    rw [← not_lt, ← gt_iff_lt, ← hless, Bool.not_eq_true]
  refine (sortSlice_pairwise less ?_ ?_ data).imp ?_
  · intro a b h
    rw [hfalse]
    exact le_of_lt ((hless a b).mp h)
  · intro a b c h1 h2
    rw [hfalse] at *
    exact le_trans h1 h2
  · intro a b h
    exact (hfalse b a).mp h

/-- The `switch` returns a permutation of the list it is given, for every `sortBy`. -/
theorem sortSongs_perm (sortBy sortOrder : String) (rs : List song) :
    (sortSongs sortBy sortOrder rs).Perm rs := by
  unfold sortSongs
  repeat' split
  all_goals first
    | exact sortSlice_perm _ _
    | exact List.Perm.refl _

/-- Claim C10. Sorting in `getSongs`. For every list of songs, every `sortBy` and every
`sortOrder`, the sorted list is a permutation of the list given; for each recognised field
(`streams`, `key`, `bpm`, `popularity`, `name`) it is non-decreasing in that field when
`sortOrder` is `"asc"` and non-increasing for every other `sortOrder`, the default `"desc"`
included. Entries with streams A:10, B:30, C:20 sorted by `streams` give A, C, B ascending
and B, C, A with the default order. -/
theorem sortSongs_sorted (sortBy sortOrder : String) (rs : List song) :
    (sortSongs sortBy sortOrder rs).Perm rs ∧
    (sortBy = "streams" →
      (sortOrder = "asc" →
        (sortSongs sortBy sortOrder rs).Pairwise (fun a b => a.Streams ≤ b.Streams)) ∧
      (sortOrder ≠ "asc" →
        (sortSongs sortBy sortOrder rs).Pairwise (fun a b => b.Streams ≤ a.Streams))) ∧
    (sortBy = "key" →
      (sortOrder = "asc" →
        (sortSongs sortBy sortOrder rs).Pairwise (fun a b => a.Key ≤ b.Key)) ∧
      (sortOrder ≠ "asc" →
        (sortSongs sortBy sortOrder rs).Pairwise (fun a b => b.Key ≤ a.Key))) ∧
    (sortBy = "bpm" →
      (sortOrder = "asc" →
        (sortSongs sortBy sortOrder rs).Pairwise (fun a b => a.Bpm ≤ b.Bpm)) ∧
      (sortOrder ≠ "asc" →
        (sortSongs sortBy sortOrder rs).Pairwise (fun a b => b.Bpm ≤ a.Bpm))) ∧
    (sortBy = "popularity" →
      (sortOrder = "asc" →
        (sortSongs sortBy sortOrder rs).Pairwise (fun a b => a.Popularity ≤ b.Popularity)) ∧
      (sortOrder ≠ "asc" →
        (sortSongs sortBy sortOrder rs).Pairwise (fun a b => b.Popularity ≤ a.Popularity))) ∧
    (sortBy = "name" →
      (sortOrder = "asc" →
        (sortSongs sortBy sortOrder rs).Pairwise (fun a b => a.Name ≤ b.Name)) ∧
      (sortOrder ≠ "asc" →
        (sortSongs sortBy sortOrder rs).Pairwise (fun a b => b.Name ≤ a.Name))) ∧
    sortSongs "streams" "asc" [track "A" 10, track "B" 30, track "C" 20]
      = [track "A" 10, track "C" 20, track "B" 30] ∧
    sortSongs "streams" ((none : Option String).getD "desc")
        [track "A" 10, track "B" 30, track "C" 20]
      = [track "B" 30, track "C" 20, track "A" 10] := by
  refine ⟨sortSongs_perm sortBy sortOrder rs, ?_, ?_, ?_, ?_, ?_, by decide, by decide⟩
  · rintro rfl
    constructor
    · rintro rfl
      simp only [sortSongs, if_true]
      exact sortSlice_asc (fun a : song => a.Streams) _ (by simp) rs
    · intro h
      simp only [sortSongs, if_true, if_neg h]
      exact sortSlice_desc (fun a : song => a.Streams) _ (by simp) rs
  · rintro rfl
    constructor
    · rintro rfl
      simp only [sortSongs, if_true]
      exact sortSlice_asc (fun a : song => a.Key) _ (by simp) rs
    · intro h
      simp only [sortSongs, if_true, if_neg h]
      exact sortSlice_desc (fun a : song => a.Key) _ (by simp) rs
  · rintro rfl
    constructor
    · rintro rfl
      simp only [sortSongs, if_true]
      exact sortSlice_asc (fun a : song => a.Bpm) _ (by simp) rs
    · intro h
      simp only [sortSongs, if_true, if_neg h]
      exact sortSlice_desc (fun a : song => a.Bpm) _ (by simp) rs
  · rintro rfl
    constructor
    · rintro rfl
      simp only [sortSongs, if_true]
      exact sortSlice_asc (fun a : song => a.Popularity) _ (by simp) rs
    · intro h
      simp only [sortSongs, if_true, if_neg h]
      exact sortSlice_desc (fun a : song => a.Popularity) _ (by simp) rs
  · rintro rfl
    constructor
    · rintro rfl
      simp only [sortSongs, if_true]
      exact sortSlice_asc (fun a : song => a.Name) _ (by simp) rs
    · intro h
      simp only [sortSongs, if_true, if_neg h]
      exact sortSlice_desc (fun a : song => a.Name) _ (by simp) rs

/-! ### Popularity of the response -/

/-- What the loop of lines 256-268 does to one entry: every field but `Popularity` is kept;
`Popularity` is the value of the map when the identifier is not empty and is a key of the
map, and 0 otherwise. -/
theorem assignPopularity_spec (all : PopMap) (c : song) :
    (assignPopularity all c).Name = c.Name ∧
    (assignPopularity all c).Streams = c.Streams ∧
    (assignPopularity all c).Key = c.Key ∧
    (assignPopularity all c).Bpm = c.Bpm ∧
    (assignPopularity all c).SpotifyID = c.SpotifyID ∧
    (∀ p, c.SpotifyID ≠ "" → all c.SpotifyID = some p → (assignPopularity all c).Popularity = p) ∧
    (c.SpotifyID = "" ∨ all c.SpotifyID = none → (assignPopularity all c).Popularity = 0) := by
  unfold assignPopularity
  by_cases hid : c.SpotifyID = ""
  · simp [hid]
  · rcases hm : all c.SpotifyID with _ | p
    · simp [hid, hm]
    · simp [hid, hm]

/-- Claim C9. Popularity defaulting in `getSongs`. For every catalog and every popularity map,
the response list before sorting has the length of the catalog, and at each index the same
`Name`, `Streams`, `Key`, `Bpm` and `SpotifyID` as the catalog entry at that index; its
`Popularity` is the value of the map when the `SpotifyID` of the entry is not empty and is a
key of the map, and 0 otherwise. No entry is left out. -/
theorem enrich_defaults (catalog : List song) (all : PopMap) :
    (enrich catalog all).length = catalog.length ∧
    ∀ (i : Nat) (c : song), catalog[i]? = some c →
      ∃ r, (enrich catalog all)[i]? = some r ∧
        r.Name = c.Name ∧ r.Streams = c.Streams ∧ r.Key = c.Key ∧ r.Bpm = c.Bpm ∧
        r.SpotifyID = c.SpotifyID ∧
        (∀ p, c.SpotifyID ≠ "" → all c.SpotifyID = some p → r.Popularity = p) ∧
        (c.SpotifyID = "" ∨ all c.SpotifyID = none → r.Popularity = 0) := by
  refine ⟨by simp [enrich], ?_⟩
  intro i c hc
  refine ⟨assignPopularity all c, ?_, assignPopularity_spec all c⟩
  simp [enrich, List.getElem?_map, hc]

/-- Witness of C9: a catalog whose first entry is found in the map, whose second entry is
absent from it and whose third entry has no identifier. -/
theorem enrich_defaults_witness :
    (enrich sampleCatalog samplePopularities).length = 3 ∧
    (enrich sampleCatalog samplePopularities).map (fun r => r.Popularity) = [42, 0, 0] ∧
    (enrich sampleCatalog samplePopularities).map (fun r => r.Name) = ["A", "B", "C"] := by
  refine ⟨(enrich_defaults sampleCatalog samplePopularities).1, by decide, by decide⟩

/-! ### The guard of `getTracksDetails` -/

/-- The retry loop does not touch the log of calls nor the token cache. -/
theorem loop_frame (env : Env) (n : Nat) :
    ∀ (rc : Nat) (s : State), 3 - rc = n →
      (doSpotifyRequestLoop env rc s).2.calls = s.calls ∧
      (doSpotifyRequestLoop env rc s).2.cachedToken = s.cachedToken ∧
      (doSpotifyRequestLoop env rc s).2.tokenExpiration = s.tokenExpiration ∧
      (doSpotifyRequestLoop env rc s).2.tokenSent = s.tokenSent := by
  induction n with
  | zero =>
    intro rc s h
    rw [loop_exit env rc s (by omega)]
    exact ⟨rfl, rfl, rfl, rfl⟩
  | succ n ih =>
    intro rc s h
    have hrc : rc < 3 := by omega
    rcases hd : env.spotifyDo s.sent with cause | resp
    · rw [loop_transport env rc s cause hrc hd]
      exact ⟨rfl, rfl, rfl, rfl⟩
    · by_cases hs : resp.StatusCode = 429
      · by_cases h2 : rc < 2
        · rw [loop_429_retry env rc s resp h2 hd hs]
          exact ih (rc + 1) _ (by omega)
        · have : rc = 2 := by omega
          subst this
          rw [loop_429_last env s resp hd hs]
          exact ⟨rfl, rfl, rfl, rfl⟩
      · rw [loop_other env rc s resp hrc hd hs]
        exact ⟨rfl, rfl, rfl, rfl⟩

/-- A call of `getTracksDetails` does not touch the log of calls. -/
theorem getTracksDetails_calls (env : Env) (trackIDs : List String) (accessToken : String)
    (s : State) : (getTracksDetails env trackIDs accessToken s).2.calls = s.calls := by
  have hframe := (loop_frame env 3 0 s rfl).1
  unfold getTracksDetails
  by_cases h0 : trackIDs.length = 0
  · rw [if_pos h0]
  · rw [if_neg h0]
    by_cases h50 : trackIDs.length > 50
    · rw [if_pos h50]
    · rw [if_neg h50]
      simp only
      cases hn : env.newRequestErr (spotifyAPI ++ "/tracks?ids=" ++ ",".intercalate trackIDs)
        with
      | some cause => rfl
      | none =>
        simp only
        unfold doSpotifyRequest
        rcases hloop : doSpotifyRequestLoop env 0 s with ⟨r, s1⟩
        rw [hloop] at hframe
        simp only at hframe
        cases r with
        | error err => exact hframe
        | ok resp =>
          simp only
          cases hb : resp.body with
          | error cause => exact hframe
          | ok body =>
            simp only
            by_cases hst : resp.StatusCode ≠ 200
            · rw [if_pos hst]
              exact hframe
            · rw [if_neg hst]
              cases hu : env.unmarshalTracks body with
              | error cause => exact hframe
              | ok tracks => exact hframe

/-- Claim C7. The guard of `getTracksDetails` on the length of its input. An empty list gives
the empty map with no error, and a list of more than 50 identifiers gives an error and no
map; in both cases nothing is sent and the state is unchanged. A request is sent only when
the length is between 1 and 50. -/
theorem getTracksDetails_length_guard (env : Env) (trackIDs : List String)
    (accessToken : String) (s : State) :
    (trackIDs.length = 0 →
      getTracksDetails env trackIDs accessToken s = (.ok PopMap.empty, s) ∧
      ∀ id, PopMap.empty id = none) ∧
    (50 < trackIDs.length →
      getTracksDetails env trackIDs accessToken s
        = (.error (.tooManyTrackIDs trackIDs.length), s)) ∧
    ((getTracksDetails env trackIDs accessToken s).2.sent ≠ s.sent →
      1 ≤ trackIDs.length ∧ trackIDs.length ≤ 50) := by
  refine ⟨?_, ?_, ?_⟩
  · intro h
    refine ⟨?_, fun _ => rfl⟩
    unfold getTracksDetails
    rw [if_pos h]
  · intro h
    unfold getTracksDetails
    rw [if_neg (by omega), if_pos (by omega)]
  · intro h
    by_contra hlen
    apply h
    by_cases h0 : trackIDs.length = 0
    · unfold getTracksDetails
      rw [if_pos h0]
    · unfold getTracksDetails
      rw [if_neg h0, if_pos (by omega)]

/-- Witness of C7: the empty list and a list of 51 identifiers, in a fresh state. -/
theorem getTracksDetails_length_guard_witness :
    (getTracksDetails envAlways429 [] "tok" freshState).2.sent = 0 ∧
    (getTracksDetails envAlways429 (List.replicate 51 "id") "tok" freshState).1
      = .error (.tooManyTrackIDs 51) ∧
    (getTracksDetails envAlways429 (List.replicate 51 "id") "tok" freshState).2.sent = 0 := by
  have h := getTracksDetails_length_guard envAlways429
  have h0 := ((h [] "tok" freshState).1 rfl).1
  have h51 := (h (List.replicate 51 "id") "tok" freshState).2.1 (by simp)
  rw [h0, h51]
  simp [freshState]

/-! ### The batch loop -/

/-- The slice `idsToFetch[i:end]` of the loop is the next 50 identifiers from `i`, or all the
remaining ones when there are fewer. -/
theorem batch_slice (ids : List String) (i : Nat) (h : i < ids.length) :
    (ids.drop i).take ((if i + batchSize > ids.length then ids.length else i + batchSize) - i)
      = (ids.drop i).take 50 := by
  unfold batchSize
  by_cases hlt : i + 50 > ids.length
  · rw [if_pos hlt]
    rw [List.take_of_length_le (by rw [List.length_drop]),
      List.take_of_length_le (by rw [List.length_drop]; omega)]
  · rw [if_neg hlt]
    congr 1
    omega

/-- One turn of the batch loop. -/
theorem batchLoop_step (env : Env) (ids : List String) (accessToken : String) (i : Nat)
    (all : PopMap) (s : State) (h : i < ids.length) :
    batchLoop env ids accessToken i all s
      = batchLoop env ids accessToken (i + 50)
          (match (getTracksDetails env ((ids.drop i).take 50) accessToken s).1 with
            | .error _ => all
            | .ok popularityMap => all.merge popularityMap)
          { (getTracksDetails env ((ids.drop i).take 50) accessToken s).2 with
            calls := (getTracksDetails env ((ids.drop i).take 50) accessToken s).2.calls
              ++ [((ids.drop i).take 50,
                    (getTracksDetails env ((ids.drop i).take 50) accessToken s).1)] } := by
  rw [batchLoop]
  rw [if_pos h]
  simp only [batch_slice ids i h]
  rcases getTracksDetails env ((ids.drop i).take 50) accessToken s with ⟨result, s1⟩
  cases result <;> rfl

theorem batchLoop_done (env : Env) (ids : List String) (accessToken : String) (i : Nat)
    (all : PopMap) (s : State) (h : ¬ i < ids.length) :
    batchLoop env ids accessToken i all s = (all, s) := by
  rw [batchLoop]
  rw [if_neg h]

/-- Key by key, the merge loop `all[id] = pop` gives the value of the merged map where it
has the key, and leaves the value of `all` elsewhere. -/
theorem merge_apply (all m : PopMap) (id : String) :
    (∀ pop, m id = some pop → (all.merge m) id = some pop) ∧
    (m id = none → (all.merge m) id = all id) := by
  constructor
  · intro pop h
    simp [PopMap.merge, h]
  · intro h
    simp [PopMap.merge, h]

/-- Key by key, the map after a sequence of results: the value under the key in the last
result that is a map having this key, and the value of the starting map when there is none.
A result that is an error contributes nothing. -/
theorem mergeResults_apply (results : List (Except Err PopMap)) :
    ∀ (start : PopMap) (id : String),
      mergeResults start results id
        = match results.reverse.findSome? (fun result =>
              match result with
              | .ok popularityMap => popularityMap id
              | .error _ => none) with
          | some pop => some pop
          | none => start id := by
  induction results with
  | nil => intro start id; rfl
  | cons r rs ih =>
    intro start id
    have hstep : mergeResults start (r :: rs)
        = mergeResults
            (match r with
              | .error _ => start
              | .ok popularityMap => start.merge popularityMap) rs := rfl
    rw [hstep, ih, List.reverse_cons, List.findSome?_append]
    cases hfind : rs.reverse.findSome? (fun result =>
        match result with
        | .ok popularityMap => popularityMap id
        | .error _ => none) with
    | some pop => simp
    | none =>
      cases r with
      | error err => simp
      | ok m =>
        cases hm : m id with
        | none => simp [hm, (merge_apply start m id).2 hm]
        | some pop => simp [hm, (merge_apply start m id).1 pop hm]

theorem mergeResults_append (start : PopMap) (l1 l2 : List (Except Err PopMap)) :
    mergeResults start (l1 ++ l2) = mergeResults (mergeResults start l1) l2 := by
  unfold mergeResults
  rw [List.foldl_append]

/-- The batch loop, entered at the index of batch `j` in the state and with the map reached
after the first `j` calls, ends in the state and with the map reached after all the calls. -/
theorem batchLoop_from (env : Env) (ids : List String) (accessToken : String) (s : State)
    (start : PopMap) (n : Nat) :
    ∀ j : Nat, ids.length - 50 * j ≤ n → j ≤ (ids.length + 49) / 50 →
      batchLoop env ids accessToken (50 * j)
          (mergeResults start ((List.range j).map (resultAtBatch env ids accessToken s)))
          (stateAtBatch env ids accessToken s j)
        = (mergeResults start
              ((List.range ((ids.length + 49) / 50)).map
                (resultAtBatch env ids accessToken s)),
            stateAtBatch env ids accessToken s ((ids.length + 49) / 50)) := by
  induction n with
  | zero =>
    intro j h hj
    have hdone : ¬ 50 * j < ids.length := by omega
    have hjm : j = (ids.length + 49) / 50 := by omega
    rw [batchLoop_done env ids accessToken (50 * j) _ _ hdone, ← hjm]
  | succ n ih =>
    intro j h hj
    by_cases hlt : 50 * j < ids.length
    · rw [batchLoop_step env ids accessToken (50 * j) _ _ hlt]
      have e : 50 * j + 50 = 50 * (j + 1) := by omega
      rw [e, ← ih (j + 1) (by omega) (by omega)]
      congr 1
      rw [List.range_succ, List.map_append, mergeResults_append]
      rfl
    · have hjm : j = (ids.length + 49) / 50 := by omega
      rw [batchLoop_done env ids accessToken (50 * j) _ _ hlt, ← hjm]

/-- The batch loop entered at index 0: its map and its state are those reached after
`ceil(N/50)` calls of `getTracksDetails`, one for each batch, in order. -/
theorem batchLoop_run (env : Env) (ids : List String) (accessToken : String) (s : State)
    (start : PopMap) :
    batchLoop env ids accessToken 0 start s
      = (mergeResults start
            ((List.range ((ids.length + 49) / 50)).map (resultAtBatch env ids accessToken s)),
          stateAtBatch env ids accessToken s ((ids.length + 49) / 50)) := by
  have h := batchLoop_from env ids accessToken s start ids.length 0 (by omega) (by omega)
  simpa [mergeResults, stateAtBatch] using h

/-- The log of calls after `k` calls: the `k` batches, each with the result that
`getTracksDetails` returned for it. -/
theorem stateAtBatch_calls (env : Env) (ids : List String) (accessToken : String)
    (s : State) :
    ∀ k : Nat, (stateAtBatch env ids accessToken s k).calls
      = s.calls ++ (List.range k).map
          (fun j => (batchAt ids j, resultAtBatch env ids accessToken s j)) := by
  intro k
  induction k with
  | zero => simp [stateAtBatch]
  | succ k ih =>
    have hstep : (stateAtBatch env ids accessToken s (k + 1)).calls
        = (getTracksDetails env (batchAt ids k) accessToken
              (stateAtBatch env ids accessToken s k)).2.calls
            ++ [(batchAt ids k, resultAtBatch env ids accessToken s k)] := rfl
    rw [hstep, getTracksDetails_calls, ih, List.range_succ, List.map_append,
      List.append_assoc]
    rfl

theorem batchAt_length (ids : List String) (k : Nat) :
    (batchAt ids k).length = min 50 (ids.length - 50 * k) := by
  unfold batchAt
  rw [List.length_take, List.length_drop]

/-- The first `j` batches, concatenated, are the first `50 * j` identifiers. -/
theorem flatten_batches (ids : List String) :
    ∀ j : Nat, ((List.range j).map (batchAt ids)).flatten = ids.take (50 * j) := by
  intro j
  induction j with
  | zero => simp
  | succ j ih =>
    rw [List.range_succ, List.map_append, List.flatten_append, ih]
    have e : 50 * (j + 1) = 50 * j + 50 := by omega
    rw [e, List.take_add]
    simp [batchAt]

/-- Claim C4. Chunking in `getSongs`. For every list of `N` identifiers and whatever the calls
return, the batch loop makes exactly `ceil(N/50)` calls of `getTracksDetails`, written
`(N + 49) / 50`: call `k` receives batch `k`, the block of 50 identifiers that starts at
position `50 * k`, in the state left by the calls before it, and the loop ends in the state
left by the last call. Every batch passed is not empty and has at most 50 identifiers, and
the batches, concatenated in the order of the calls, are the list itself. -/
theorem batchLoop_chunks (env : Env) (ids : List String) (accessToken : String)
    (all : PopMap) (s : State) :
    (batchLoop env ids accessToken 0 all s).2
      = stateAtBatch env ids accessToken s ((ids.length + 49) / 50) ∧
    (batchLoop env ids accessToken 0 all s).2.calls
      = s.calls ++ (List.range ((ids.length + 49) / 50)).map
          (fun k =>
            (batchAt ids k,
              (getTracksDetails env (batchAt ids k) accessToken
                (stateAtBatch env ids accessToken s k)).1)) ∧
    (batchLoop env ids accessToken 0 all s).2.calls.length
      = s.calls.length + (ids.length + 49) / 50 ∧
    (ids.length ≤ 50 * ((ids.length + 49) / 50) ∧
      50 * ((ids.length + 49) / 50) < ids.length + 50) ∧
    (∀ k, k < (ids.length + 49) / 50 →
      batchAt ids k = (ids.drop (50 * k)).take 50 ∧
      batchAt ids k ≠ [] ∧ (batchAt ids k).length ≤ 50) ∧
    ((List.range ((ids.length + 49) / 50)).map (batchAt ids)).flatten = ids := by
  have hrun := batchLoop_run env ids accessToken s all
  have hcalls := stateAtBatch_calls env ids accessToken s ((ids.length + 49) / 50)
  refine ⟨by rw [hrun], ?_, ?_, by omega, ?_, ?_⟩
  · rw [hrun]
    exact hcalls
  · rw [hrun]
    simp only
    rw [hcalls]
    simp
  · intro k hk
    refine ⟨rfl, ?_, ?_⟩
    · intro hnil
      have := congrArg List.length hnil
      rw [batchAt_length] at this
      simp only [List.length_nil] at this
      omega
    · rw [batchAt_length]
      omega
  · rw [flatten_batches]
    exact List.take_of_length_le (by omega)

/-- The handler after a successful call of `getSpotifyAccessToken`. -/
theorem getSongs_ok (env : Env) (catalog : List song) (clientID clientSecret : String)
    (sortByQuery sortOrderQuery : Option String) (s : State) (accessToken : String)
    (s1 : State)
    (htok : getSpotifyAccessToken env clientID clientSecret s = (.ok accessToken, s1)) :
    getSongs env catalog clientID clientSecret sortByQuery sortOrderQuery s
      = (.songs 200
          (sortSongs (sortByQuery.getD "streams") (sortOrderQuery.getD "desc")
            (enrich catalog
              (batchLoop env (idsToFetch catalog) accessToken 0 PopMap.empty s1).1)),
          (batchLoop env (idsToFetch catalog) accessToken 0 PopMap.empty s1).2) := by
  unfold getSongs
  rw [htok]

/-- The handler after a failed call of `getSpotifyAccessToken`: status 500, no batch. -/
theorem getSongs_auth_error (env : Env) (catalog : List song) (clientID clientSecret : String)
    (sortByQuery sortOrderQuery : Option String) (s : State) (err : Err) (s1 : State)
    (htok : getSpotifyAccessToken env clientID clientSecret s = (.error err, s1)) :
    getSongs env catalog clientID clientSecret sortByQuery sortOrderQuery s
      = (.error 500 "Could not authenticate with Spotify", s1) := by
  unfold getSongs
  rw [htok]


/-- Claim C8. Partial batch failure in `getSongs`. Once the token is obtained, whatever each
call of `getTracksDetails` returns (an error or a map): every batch of the identifiers to
fetch is passed to `getTracksDetails`, in order, each in the state left by the calls before
it, failed or not, and the handler ends in the state left by the last call. The map
`allPopularities` at the end of the loop holds under each key the value of the last map
returned that has this key, and nothing under a key that no returned map has: a call that
failed contributes no entry. And the handler answers 200 with a list as long as the catalog,
built from that map. -/
theorem getSongs_partial_batch_failure (env : Env) (catalog : List song)
    (clientID clientSecret : String) (sortByQuery sortOrderQuery : Option String) (s : State)
    (accessToken : String) (s1 : State)
    (htok : getSpotifyAccessToken env clientID clientSecret s = (.ok accessToken, s1)) :
    (getSongs env catalog clientID clientSecret sortByQuery sortOrderQuery s).2
      = stateAtBatch env (idsToFetch catalog) accessToken s1
          (((idsToFetch catalog).length + 49) / 50) ∧
    (getSongs env catalog clientID clientSecret sortByQuery sortOrderQuery s).2.calls
      = s1.calls ++ (List.range (((idsToFetch catalog).length + 49) / 50)).map
          (fun k =>
            (batchAt (idsToFetch catalog) k,
              (getTracksDetails env (batchAt (idsToFetch catalog) k) accessToken
                (stateAtBatch env (idsToFetch catalog) accessToken s1 k)).1)) ∧
    ((List.range (((idsToFetch catalog).length + 49) / 50)).map
      (batchAt (idsToFetch catalog))).flatten = idsToFetch catalog ∧
    ∃ allPopularities : PopMap,
      (batchLoop env (idsToFetch catalog) accessToken 0 PopMap.empty s1).1 = allPopularities ∧
      (∀ id : String,
        allPopularities id
          = ((List.range (((idsToFetch catalog).length + 49) / 50)).map
              (fun k =>
                (getTracksDetails env (batchAt (idsToFetch catalog) k) accessToken
                  (stateAtBatch env (idsToFetch catalog) accessToken s1 k)).1)).reverse.findSome?
              (fun result =>
                match result with
                | .ok popularityMap => popularityMap id
                | .error _ => none)) ∧
      (getSongs env catalog clientID clientSecret sortByQuery sortOrderQuery s).1
        = .songs 200
            (sortSongs (sortByQuery.getD "streams") (sortOrderQuery.getD "desc")
              (enrich catalog allPopularities)) ∧
      (sortSongs (sortByQuery.getD "streams") (sortOrderQuery.getD "desc")
        (enrich catalog allPopularities)).length = catalog.length := by
  have hrun := batchLoop_run env (idsToFetch catalog) accessToken s1 PopMap.empty
  rw [getSongs_ok env catalog clientID clientSecret sortByQuery sortOrderQuery s accessToken s1
    htok, hrun]
  refine ⟨rfl, ?_, ?_, _, rfl, ?_, rfl, ?_⟩
  · exact stateAtBatch_calls env (idsToFetch catalog) accessToken s1 _
  · rw [flatten_batches]
    exact List.take_of_length_le (by omega)
  · intro id
    have h := mergeResults_apply
      ((List.range (((idsToFetch catalog).length + 49) / 50)).map
        (resultAtBatch env (idsToFetch catalog) accessToken s1)) PopMap.empty id
    refine h.trans ?_
    change (match ((List.range (((idsToFetch catalog).length + 49) / 50)).map
        (resultAtBatch env (idsToFetch catalog) accessToken s1)).reverse.findSome?
        (fun result =>
          match result with
          | .ok popularityMap => popularityMap id
          | .error _ => none) with
      | some pop => some pop
      | none => PopMap.empty id)
      = ((List.range (((idsToFetch catalog).length + 49) / 50)).map
        (resultAtBatch env (idsToFetch catalog) accessToken s1)).reverse.findSome?
        (fun result =>
          match result with
          | .ok popularityMap => popularityMap id
          | .error _ => none)
    generalize ((List.range (((idsToFetch catalog).length + 49) / 50)).map
        (resultAtBatch env (idsToFetch catalog) accessToken s1)).reverse.findSome?
        (fun result =>
          match result with
          | .ok popularityMap => popularityMap id
          | .error _ => none) = found
    cases found <;> rfl
  · rw [(sortSongs_perm _ _ _).length_eq]
    simp [enrich]

/-! ### A run with a failed batch -/

/-- A call of `getTracksDetails` whose request fails in transport. -/
theorem getTracksDetails_transport (env : Env) (trackIDs : List String)
    (accessToken : String) (s : State) (cause : String)
    (h1 : trackIDs.length ≠ 0) (h50 : trackIDs.length ≤ 50)
    (hreq : env.newRequestErr (spotifyAPI ++ "/tracks?ids=" ++ ",".intercalate trackIDs)
      = none)
    (hdo : env.spotifyDo s.sent = .error cause) :
    getTracksDetails env trackIDs accessToken s
      = (.error (.spotifyExecute cause), { s with sent := s.sent + 1 }) := by
  unfold getTracksDetails
  rw [if_neg h1, if_neg (by omega)]
  simp only [hreq]
  unfold doSpotifyRequest
  rw [loop_transport env 0 s cause (by omega) hdo]

/-- A call of `getTracksDetails` whose first request is answered 200 with a body that
decodes. -/
theorem getTracksDetails_ok (env : Env) (trackIDs : List String)
    (accessToken : String) (s : State) (resp : Response) (body : String)
    (tracks : List (String × Int))
    (h1 : trackIDs.length ≠ 0) (h50 : trackIDs.length ≤ 50)
    (hreq : env.newRequestErr (spotifyAPI ++ "/tracks?ids=" ++ ",".intercalate trackIDs)
      = none)
    (hdo : env.spotifyDo s.sent = .ok resp) (hst : resp.StatusCode = 200)
    (hbody : resp.body = .ok body) (hdec : env.unmarshalTracks body = .ok tracks) :
    getTracksDetails env trackIDs accessToken s
      = (.ok (popularityOfTracks tracks), { s with sent := s.sent + 1 }) := by
  unfold getTracksDetails
  rw [if_neg h1, if_neg (by omega)]
  simp only [hreq]
  unfold doSpotifyRequest
  rw [loop_other env 0 s resp (by omega) hdo (by rw [hst]; decide)]
  simp only [hbody, hst, hdec]
  simp

/-- In `envDownThenUp` a call with 1 to 50 identifiers sends one request; it fails when it is
the first request of the run and returns the map of the track `"a"` otherwise. -/
theorem downThenUp_call (trackIDs : List String) (accessToken : String) (s : State)
    (h1 : trackIDs.length ≠ 0) (h50 : trackIDs.length ≤ 50) :
    getTracksDetails envDownThenUp trackIDs accessToken s
      = (if s.sent = 0 then .error (.spotifyExecute "down")
          else .ok (popularityOfTracks [("a", 7)]),
        { s with sent := s.sent + 1 }) := by
  by_cases h0 : s.sent = 0
  · rw [if_pos h0]
    exact getTracksDetails_transport envDownThenUp trackIDs accessToken s "down" h1 h50 rfl
      (by simp [envDownThenUp, sampleEnv, h0])
  · rw [if_neg h0]
    exact getTracksDetails_ok envDownThenUp trackIDs accessToken s (answer 200 "" "tracks")
      "tracks" [("a", 7)] h1 h50 rfl (by simp [envDownThenUp, sampleEnv, h0]) rfl rfl rfl

/-- In `envDownThenUp`, as long as the batches are not empty, call `k` is made with `k`
more requests sent than at the start. -/
theorem downThenUp_sent (ids : List String) (accessToken : String) (s : State) :
    ∀ k : Nat, 50 * k < ids.length + 50 →
      (stateAtBatch envDownThenUp ids accessToken s k).sent = s.sent + k := by
  intro k
  induction k with
  | zero => intro _; rfl
  | succ k ih =>
    intro hk
    have hstep : (stateAtBatch envDownThenUp ids accessToken s (k + 1)).sent
        = (getTracksDetails envDownThenUp (batchAt ids k) accessToken
            (stateAtBatch envDownThenUp ids accessToken s k)).2.sent := rfl
    have hlen := batchAt_length ids k
    rw [hstep, downThenUp_call (batchAt ids k) accessToken _ (by omega) (by omega)]
    simp only
    rw [ih (by omega)]
    omega

/-- In `envDownThenUp` the result of call `k`: an error for the first request of the run, the
map of the track `"a"` for the others. -/
theorem downThenUp_result (ids : List String) (accessToken : String) (s : State) (k : Nat)
    (hk : 50 * k < ids.length) :
    (getTracksDetails envDownThenUp (batchAt ids k) accessToken
        (stateAtBatch envDownThenUp ids accessToken s k)).1
      = if s.sent + k = 0 then .error (.spotifyExecute "down")
        else .ok (popularityOfTracks [("a", 7)]) := by
  have hlen := batchAt_length ids k
  rw [downThenUp_call (batchAt ids k) accessToken _ (by omega) (by omega)]
  simp only
  rw [downThenUp_sent ids accessToken s k (by omega)]

/-- Witness of C4: 120 identifiers are fetched in 3 calls, of 50, 50 and 20 identifiers; the
first call fails, the two others are made all the same and succeed, and 3 requests are
sent. -/
theorem batchLoop_chunks_witness :
    (batchLoop envDownThenUp (List.replicate 120 "id") "tok" 0 PopMap.empty freshState).2.sent
      = 3 ∧
    (batchLoop envDownThenUp (List.replicate 120 "id") "tok" 0 PopMap.empty
        freshState).2.calls.map (fun call => (call.1.length, call.2.toBool))
      = [(50, false), (50, true), (20, true)] := by
  obtain ⟨h1, h2, _, _, _, _⟩ :=
    batchLoop_chunks envDownThenUp (List.replicate 120 "id") "tok" PopMap.empty freshState
  have hm : ((List.replicate 120 "id").length + 49) / 50 = 3 := by simp
  rw [hm] at h1 h2
  constructor
  · rw [h1, downThenUp_sent _ _ _ 3 (by simp)]
    rfl
  · rw [h2]
    simp only [List.range_succ, List.range_zero, List.nil_append, List.map_append,
      List.map_cons, List.map_nil, List.singleton_append]
    rw [downThenUp_result _ _ _ 0 (by simp), downThenUp_result _ _ _ 1 (by simp),
      downThenUp_result _ _ _ 2 (by simp)]
    simp [batchAt_length, freshState, Except.toBool]

theorem idsToFetch_bigCatalog : idsToFetch bigCatalog = List.replicate 50 "x" ++ ["a"] := by
  decide

/-- Witness of C8: a catalog of 51 identifiers, hence two batches. The first call of
`getTracksDetails` fails, the second is made all the same and returns the popularity 7 of
`"a"`; two requests are sent; the handler answers 200 with the 51 entries, the entry `"a"`
with popularity 7 and the entries of the failed batch with popularity 0. -/
theorem getSongs_partial_batch_failure_witness :
    getSpotifyAccessToken envDownThenUp "id" "secret" freshState = (.ok "tok", tokenState) ∧
    (getSongs envDownThenUp bigCatalog "id" "secret" none none freshState).2.sent = 2 ∧
    (getSongs envDownThenUp bigCatalog "id" "secret" none none freshState).2.calls.map
        (fun call => (call.1, call.2.toBool))
      = [(List.replicate 50 "x", false), (["a"], true)] ∧
    ∃ allPopularities : PopMap,
      allPopularities "a" = some 7 ∧ allPopularities "x" = none ∧
      (getSongs envDownThenUp bigCatalog "id" "secret" none none freshState).1
        = .songs 200 (sortSongs "streams" "desc" (enrich bigCatalog allPopularities)) ∧
      (sortSongs "streams" "desc" (enrich bigCatalog allPopularities)).length = 51 ∧
      (sortSongs "streams" "desc" (enrich bigCatalog allPopularities)).map
          (fun r => r.Popularity)
        = 7 :: List.replicate 50 0 := by
  have htok : getSpotifyAccessToken envDownThenUp "id" "secret" freshState
      = (.ok "tok", tokenState) := rfl
  obtain ⟨h1, h2, _, all, _, hall, hreply, hlen⟩ :=
    getSongs_partial_batch_failure envDownThenUp bigCatalog "id" "secret" none none freshState
      "tok" tokenState htok
  have hm : ((idsToFetch bigCatalog).length + 49) / 50 = 2 := by
    rw [idsToFetch_bigCatalog]
    simp
  have hr0 := downThenUp_result (idsToFetch bigCatalog) "tok" tokenState 0
    (by rw [idsToFetch_bigCatalog]; simp)
  have hr1 := downThenUp_result (idsToFetch bigCatalog) "tok" tokenState 1
    (by rw [idsToFetch_bigCatalog]; simp)
  have hb0 : batchAt (idsToFetch bigCatalog) 0 = List.replicate 50 "x" := by
    rw [idsToFetch_bigCatalog]
    decide
  have hb1 : batchAt (idsToFetch bigCatalog) 1 = ["a"] := by
    rw [idsToFetch_bigCatalog]
    decide
  rw [hm] at h1 h2 hall
  simp only [List.range_succ, List.range_zero, List.nil_append, List.map_append,
    List.map_cons, List.map_nil, List.singleton_append, hr0, hr1] at h2 hall
  have ha : all "a" = some 7 := by
    rw [hall]
    simp [tokenState, popularityOfTracks, PopMap.set, PopMap.empty]
  have hx : all "x" = none := by
    rw [hall]
    simp [tokenState, popularityOfTracks, PopMap.set, PopMap.empty]
  have henrich : enrich bigCatalog all
      = List.replicate 50
          { Name := "X", Streams := 1, Key := "C", Bpm := 100, SpotifyID := "x",
            Popularity := 0 }
        ++ [{ Name := "A", Streams := 100, Key := "D", Bpm := 120, SpotifyID := "a",
              Popularity := 7 }] := by
    simp [enrich, bigCatalog, assignPopularity, ha, hx]
  refine ⟨htok, ?_, ?_, all, ha, hx, hreply, hlen, ?_⟩
  · rw [h1, downThenUp_sent _ _ _ 2 (by rw [idsToFetch_bigCatalog]; simp)]
    rfl
  · rw [h2]
    simp [hb0, hb1, tokenState, Except.toBool]
  · rw [henrich]
    decide

/-- Witness of C10: the sample catalog sorted by `bpm`, ascending and in the default order. -/
theorem sortSongs_sorted_witness :
    (sortSongs "bpm" "asc" sampleCatalog).Pairwise (fun a b => a.Bpm ≤ b.Bpm) ∧
    (sortSongs "bpm" "desc" sampleCatalog).Pairwise (fun a b => b.Bpm ≤ a.Bpm) ∧
    (sortSongs "bpm" "desc" sampleCatalog).map (fun a => a.Name) = ["C", "B", "A"] := by
  refine ⟨((sortSongs_sorted "bpm" "asc" sampleCatalog).2.2.2.1 rfl).1 rfl,
    ((sortSongs_sorted "bpm" "desc" sampleCatalog).2.2.2.1 rfl).2 (by decide), by decide⟩

/-! ### `strconv.Atoi` on sample headers -/

/-- The model of `strconv.Atoi` on a few headers: plain and signed numerals parse; the empty
string, an HTTP date, a padded numeral and a numeral outside the range of `int` do not. -/
theorem atoi_samples :
    atoi "42" = some 42 ∧ atoi "+5" = some 5 ∧ atoi "-7" = some (-7) ∧
    atoi "007" = some 7 ∧ atoi "" = none ∧ atoi "-" = none ∧ atoi " 5" = none ∧
    atoi "Wed, 21 Oct 2015 07:28:00 GMT" = none ∧
    atoi "9223372036854775807" = some 9223372036854775807 ∧
    atoi "9223372036854775808" = none ∧
    atoi "-9223372036854775808" = some (-9223372036854775808) := by
  decide

/-- Without a usable `Retry-After` header the two delays are 5 seconds and then 7 seconds. -/
theorem retrySeconds_samples :
    durationOfSeconds (retrySeconds "" 0) = 5 * Second ∧
    durationOfSeconds (retrySeconds "" 1) = 7 * Second ∧
    durationOfSeconds (retrySeconds "30" 0) = 30 * Second ∧
    durationOfSeconds (retrySeconds "30" 1) = 30 * Second := by
  decide

end Aguava
